import Mathlib

/-!
# Verification of the Topology & Diagnostic Reasoning Engine

Shallow embedding of the core of the `aksarc-foundrylocal-aiops` backend:

* `src/backend/src/models/diagnostic_result.py` (statuses, checks, reports, `add_check`)
* `src/backend/src/models/topology_graph.py` (typed topology snapshot)
* `src/backend/src/reasoning/topology_analyzer.py` (`TopologyGraphBuilder`)
* `src/backend/src/diagnostics/runner.py` (`DiagnosticRunner.run_all_checks`)
* `src/backend/src/services/context.py` (`ContextBuffer`)
* `src/backend/src/reasoning/loop.py` (`ReasoningLoop`)

Modelling conventions:

* Python dicts are association lists `List (String × α)` in insertion order;
  updating an existing key rewrites it in place, new keys are appended
  (CPython semantics).
* Fallible Python code is embedded as `Except String α`; a raised exception
  is `.error msg`.  Pydantic validation of a model constructed with a missing
  required field raises, which is embedded as the constructor function
  returning `.error`.  Pydantic ignores unexpected keyword arguments (default
  `extra='ignore'`), but the argument expressions are still evaluated first;
  accessing an attribute that is not a declared field raises `AttributeError`.
* Timestamps are integers (seconds); `datetime.utcnow()` at a call site is an
  explicit time parameter threaded into the functions that read the clock.
* Live Kubernetes API calls are inputs: their outcomes are explicit
  `Except String _` parameters.
-/

namespace AksArc

/-! ## Python dict semantics over association lists -/

/-- `d.get(k, dflt)` for a Python dict modelled as an insertion-ordered
association list. -/
def dictGetD {α : Type} (l : List (String × α)) (k : String) (dflt : α) : α :=
  match l.find? (fun p => p.1 == k) with
  | some p => p.2
  | none => dflt

/-- `d[k] = v` on a Python dict: overwrite the existing entry in place, or
append a new one. -/
def dictSet {α : Type} (l : List (String × α)) (k : String) (v : α) : List (String × α) :=
  if l.any (fun p => p.1 == k) then
    l.map (fun p => if p.1 == k then (k, v) else p)
  else
    l ++ [(k, v)]

/-- `k in d` membership test on a Python dict. -/
def dictHas {α : Type} (l : List (String × α)) (k : String) : Bool :=
  l.any (fun p => p.1 == k)

/-! ## `src/backend/src/models/diagnostic_result.py` -/

/-- `DiagnosticStatus` (`diagnostic_result.py`): pass / warning / fail /
error / unknown. -/
inductive DiagnosticStatus where
  | pass
  | warn
  | fail
  | error
  | unknown
deriving DecidableEq, Repr

/-- `DiagnosticSeverity` (`diagnostic_result.py`). -/
inductive DiagnosticSeverity where
  | critical
  | high
  | medium
  | low
  | info
deriving DecidableEq, Repr

/-- `RemediationAction` (`diagnostic_result.py`): `type` and `description` are
required fields; `command` and `documentation_url` are optional. -/
structure RemediationAction where
  type : String
  command : Option String
  description : String
  documentation_url : Option String
deriving DecidableEq, Repr

/-- Message pydantic raises when `RemediationAction` is constructed without its
required `type` field (every construction site in `runner.py` omits it and
instead passes `kubectl_commands` / `az_commands`, which are not fields of the
model and are ignored). -/
def remediationValidationMsg : String :=
  "1 validation error for RemediationAction: type: Field required"

/-- Embeds `RemediationAction(...)`: pydantic validates that the required
fields `type` and `description` are present; a missing one raises
`ValidationError`.  Unknown keyword arguments (`kubectl_commands`,
`az_commands` at the call sites in `runner.py`) are ignored by pydantic and
are not modelled as parameters. -/
def remediationActionNew (ty : Option String) (command : Option String)
    (description : Option String) (documentation_url : Option String) :
    Except String RemediationAction :=
  match ty, description with
  | some t, some d => .ok { type := t, command := command, description := d,
                            documentation_url := documentation_url }
  | _, _ => .error remediationValidationMsg

/-- Structured `details` payload values used by the checks in `runner.py`
(`dict[str, Any]` in the source, restricted to the shapes actually stored:
lists of strings, or lists of string-keyed records). -/
inductive Detail where
  | strList (l : List String)
  | recList (l : List (List (String × String)))
deriving DecidableEq, Repr

/-- `DiagnosticCheck` (`diagnostic_result.py`).  `timestamp` has a
`default_factory=datetime.utcnow`; the field named `remediation_actions`
defaults to `[]`.  Note the model has **no** field named `remediation`. -/
structure DiagnosticCheck where
  name : String
  category : String
  status : DiagnosticStatus
  severity : DiagnosticSeverity
  message : String
  details : List (String × Detail)
  timestamp : Int
  remediation_actions : List RemediationAction
deriving DecidableEq, Repr

/-- `DiagnosticReport` (`diagnostic_result.py`).  `cluster_name` and
`platform` are required fields with no default. -/
structure DiagnosticReport where
  cluster_name : String
  platform : String
  timestamp : Int
  checks : List DiagnosticCheck
  summary : List (String × Nat)
  overall_health : DiagnosticStatus
deriving DecidableEq, Repr

/-- The default `summary` dict of a freshly constructed `DiagnosticReport`. -/
def defaultSummary : List (String × Nat) :=
  [("total", 0), ("passed", 0), ("warnings", 0), ("failed", 0), ("errors", 0)]

/-- A `DiagnosticReport()` built with only its required fields supplied:
empty checks, default summary, `overall_health = unknown`. -/
def emptyReport (cluster_name platform : String) (timestamp : Int) : DiagnosticReport :=
  { cluster_name := cluster_name, platform := platform, timestamp := timestamp,
    checks := [], summary := defaultSummary, overall_health := .unknown }

/-- Embeds `DiagnosticReport(...)` construction with keyword arguments as used
by `run_all_checks`: pydantic validates that the required `cluster_name` and
`platform` are present; `run_all_checks` passes no `platform`, so the
construction raises. -/
def diagnosticReportNew (cluster_name : Option String) (platform : Option String)
    (timestamp : Int) (checks : List DiagnosticCheck)
    (summary : List (String × Nat)) (overall_health : DiagnosticStatus) :
    Except String DiagnosticReport :=
  match cluster_name, platform with
  | some c, some p =>
      .ok { cluster_name := c, platform := p, timestamp := timestamp,
            checks := checks, summary := summary, overall_health := overall_health }
  | _, _ => .error "1 validation error for DiagnosticReport: platform: Field required"

/-- `self.summary[k] += 1` (the key is present in the default summary). -/
def dictIncr (l : List (String × Nat)) (k : String) : List (String × Nat) :=
  dictSet l k (dictGetD l k 0 + 1)

/-- `DiagnosticReport.add_check` (`diagnostic_result.py`, lines 70–90):
append the check, bump the summary counters, and update `overall_health`
("worst status wins"; a first check lands verbatim because the report starts
at `unknown`). -/
def DiagnosticReport.add_check (r : DiagnosticReport) (check : DiagnosticCheck) :
    DiagnosticReport :=
  let checks := r.checks ++ [check]
  let summary := dictIncr r.summary "total"
  let summary :=
    match check.status with
    | .pass => dictIncr summary "passed"
    | .warn => dictIncr summary "warnings"
    | .fail => dictIncr summary "failed"
    | .error => dictIncr summary "errors"
    | .unknown => summary
  let overall :=
    if r.overall_health = .unknown then check.status
    else if check.status = .fail ∨ check.status = .error then .fail
    else if check.status = .warn ∧ r.overall_health = .pass then .warn
    else r.overall_health
  { r with checks := checks, summary := summary, overall_health := overall }

/-! ## `src/backend/src/models/topology_graph.py` -/

/-- `NodeType` (`topology_graph.py`). -/
inductive NodeType where
  | compute_node
  | pod
  | service
  | external
  | namespc
deriving DecidableEq, Repr

/-- `PortProtocol` (`topology_graph.py`).  The Kubernetes API restricts raw
protocol strings to these three values, so the pydantic enum validation at the
build sites cannot fail and is not modelled as fallible. -/
inductive PortProtocol where
  | tcp
  | udp
  | sctp
deriving DecidableEq, Repr

/-- Kubernetes IntOrString port value (used by `targetPort` and by
NetworkPolicy port restrictions). -/
inductive PortKey where
  | num (n : Int)
  | name (s : String)
deriving DecidableEq, Repr

/-- Python truthiness of an IntOrString. -/
def PortKey.truthy : PortKey → Bool
  | .num n => n ≠ 0
  | .name s => s ≠ ""

/-- `str(...)` of an IntOrString. -/
def PortKey.str : PortKey → String
  | .num n => toString n
  | .name s => s

/-- Python `x or default` for an optional string (`None` and `""` are falsy). -/
def pyOrS (v : Option String) (d : String) : String :=
  match v with
  | some s => if s == "" then d else s
  | none => d

/-- A node condition dict `{"type": ..., "status": ..., "reason": ...}` as
stored by `_build_compute_nodes`. -/
structure NodeCondition where
  type : String
  status : String
  reason : Option String
deriving DecidableEq, Repr

/-- `ContainerPort` (`topology_graph.py`). -/
structure ContainerPort where
  container : String
  port : Int
  protocol : PortProtocol
  name : Option String
deriving DecidableEq, Repr

/-- `ServicePort` (`topology_graph.py`); `target_port` is always stored as a
string by `_build_service_nodes`. -/
structure ServicePort where
  port : Int
  target_port : String
  protocol : PortProtocol
  name : Option String
deriving DecidableEq, Repr

/-- `ComputeNode` (`topology_graph.py`). -/
structure ComputeNode where
  id : String
  name : String
  ip : String
  role : String
  capacity : List (String × String)
  allocatable : List (String × String)
  conditions : List NodeCondition
deriving DecidableEq, Repr

/-- `PodNode` (`topology_graph.py`); `containers` entries are
`{"name": ..., "image": ...}` pairs. -/
structure PodNode where
  id : String
  name : String
  «namespace» : String
  node_id : String
  ip : Option String
  phase : String
  labels : List (String × String)
  service_account : String
  containers : List (String × String)
  ports : List ContainerPort
deriving DecidableEq, Repr

/-- `ServiceNode` (`topology_graph.py`). -/
structure ServiceNode where
  id : String
  name : String
  «namespace» : String
  service_type : String
  cluster_ip : Option String
  external_ip : Option String
  ports : List ServicePort
  selector : List (String × String)
  endpoint_pod_ids : List String
deriving DecidableEq, Repr

/-- A parsed NetworkPolicyPeer dict as produced by `_parse_peer`: each key is
present only when the corresponding attribute of the raw peer was truthy. -/
structure PeerDict where
  pod_selector : Option (List (String × String))
  namespace_selector : Option (List (String × String))
  ip_block : Option String
deriving DecidableEq, Repr

/-- A NetworkPolicy port dict `{"port": ..., "protocol": ...}` as stored by
`_build_network_policy_nodes`. -/
structure NetpolPortDict where
  port : Option PortKey
  protocol : Option String
deriving DecidableEq, Repr

/-- `NetworkPolicyRule` (`topology_graph.py`). -/
structure NetworkPolicyRule where
  ports : List NetpolPortDict
  from_sources : List PeerDict
  to_destinations : List PeerDict
deriving DecidableEq, Repr

/-- `NetworkPolicyNode` (`topology_graph.py`). -/
structure NetworkPolicyNode where
  id : String
  name : String
  «namespace» : String
  pod_selector : List (String × String)
  policy_types : List String
  ingress_rules : List NetworkPolicyRule
  egress_rules : List NetworkPolicyRule
  affected_pod_ids : List String
deriving DecidableEq, Repr

/-- `NetworkFlow` (`topology_graph.py`). -/
structure NetworkFlow where
  id : String
  source_type : NodeType
  source_id : String
  destination_type : NodeType
  destination_id : String
  protocol : PortProtocol
  port : Int
  allowed : Bool
  policy_refs : List String
  path : List String
deriving DecidableEq, Repr

/-- `NamespaceConnectivity` (`topology_graph.py`). -/
structure NamespaceConnectivity where
  source_namespace : String
  destination_namespace : String
  allowed : Bool
  blocking_policies : List String
  allowing_policies : List String
deriving DecidableEq, Repr

/-- `TopologyMetadata` (`topology_graph.py`); `platform` is kept as a plain
string. -/
structure TopologyMetadata where
  cluster_name : String
  timestamp : Int
  k8s_version : String
  platform : String
  node_count : Nat
  pod_count : Nat
  service_count : Nat
  namespace_count : Nat
deriving DecidableEq, Repr

/-- `TopologyGraph` (`topology_graph.py`); the unused export fields
(`external_endpoints`, `mermaid_export`, `d3_export`) are omitted. -/
structure TopologyGraph where
  metadata : TopologyMetadata
  compute_nodes : List ComputeNode
  pods : List PodNode
  services : List ServiceNode
  network_policies : List NetworkPolicyNode
  communication_flows : List NetworkFlow
  namespace_connectivity : List NamespaceConnectivity
deriving DecidableEq, Repr

/-! ## Raw Kubernetes resources consumed by `TopologyGraphBuilder`
(the fields the builder reads from the `kubernetes` client objects). -/

/-- A raw `V1Node`. -/
structure RawNode where
  name : String
  labels : Option (List (String × String))
  addresses : List (String × String)
  capacity : List (String × String)
  allocatable : List (String × String)
  conditions : List NodeCondition
deriving DecidableEq, Repr

/-- A raw `V1ContainerPort`. -/
structure RawContainerPort where
  container_port : Int
  protocol : Option PortProtocol
  name : Option String
deriving DecidableEq, Repr

/-- A raw `V1Container`. -/
structure RawContainer where
  name : String
  image : String
  ports : List RawContainerPort
deriving DecidableEq, Repr

/-- A raw `V1Pod`. -/
structure RawPod where
  name : String
  «namespace» : String
  node_name : Option String
  pod_ip : Option String
  phase : Option String
  labels : Option (List (String × String))
  service_account_name : Option String
  containers : List RawContainer
deriving DecidableEq, Repr

/-- A raw `V1ServicePort`. -/
structure RawServicePort where
  port : Int
  target_port : Option PortKey
  protocol : Option PortProtocol
  name : Option String
deriving DecidableEq, Repr

/-- A raw `V1LoadBalancerIngress`; the client object always has an `ip`
attribute, so the `hasattr(ingress, 'ip')` branch in `_build_service_nodes`
always takes `ingress.ip` and the `hostname` fallback is dead. -/
structure RawLBIngress where
  ip : Option String
  hostname : Option String
deriving DecidableEq, Repr

/-- A raw `V1Service`. -/
structure RawService where
  name : String
  «namespace» : String
  type : Option String
  cluster_ip : Option String
  selector : Option (List (String × String))
  ports : List RawServicePort
  lb_ingress : List RawLBIngress
deriving DecidableEq, Repr

/-- A raw `V1EndpointSubset` (only the addresses' IPs are read). -/
structure RawSubset where
  addresses : List String
deriving DecidableEq, Repr

/-- A raw `V1Endpoints`. -/
structure RawEndpoints where
  name : String
  «namespace» : String
  subsets : List RawSubset
deriving DecidableEq, Repr

/-- A raw `V1NetworkPolicyPeer`: the outer `Option` is whether the attribute
is set; the inner `Option` is the selector's `match_labels`. -/
structure RawPeer where
  pod_selector : Option (Option (List (String × String)))
  namespace_selector : Option (Option (List (String × String)))
  ip_block : Option String
deriving DecidableEq, Repr

/-- A raw `V1NetworkPolicyPort`. -/
structure RawNetpolPort where
  port : Option PortKey
  protocol : Option String
deriving DecidableEq, Repr

/-- A raw `V1NetworkPolicyIngressRule` / `V1NetworkPolicyEgressRule`
(`rule.ports or []`, `rule.from_ or []`, `rule.«to» or []` are modelled as
plain lists). -/
structure RawNetpolRule where
  ports : List RawNetpolPort
  from_ : List RawPeer
  «to» : List RawPeer
deriving DecidableEq, Repr

/-- A raw `V1NetworkPolicy`. -/
structure RawNetpol where
  name : String
  «namespace» : String
  pod_selector_match_labels : Option (List (String × String))
  policy_types : Option (List String)
  ingress : List RawNetpolRule
  egress : List RawNetpolRule
deriving DecidableEq, Repr

/-- `k8s_client._platform_info or {}` as read by the builder. -/
structure PlatformInfo where
  cluster_name : Option String
  version : Option String
  type : Option String
deriving DecidableEq, Repr

/-! ## `src/backend/src/reasoning/topology_analyzer.py` -/

/-- `d.get(k)` returning `None` when absent. -/
def dictGet? {α : Type} (l : List (String × α)) (k : String) : Option α :=
  (l.find? (fun p => p.1 == k)).map (fun p => p.2)

/-- `TopologyGraphBuilder._build_compute_nodes`. -/
def build_compute_nodes (nodes : List RawNode) : List ComputeNode :=
  nodes.map (fun node =>
    let role := if dictHas (node.labels.getD []) "node-role.kubernetes.io/control-plane"
                then "control-plane" else "worker"
    let node_ip :=
      match node.addresses.find? (fun a => a.1 == "InternalIP") with
      | some a => a.2
      | none => "unknown"
    { id := "node-" ++ node.name, name := node.name, ip := node_ip, role := role,
      capacity := node.capacity, allocatable := node.allocatable,
      conditions := node.conditions })

/-- `TopologyGraphBuilder._build_pod_nodes`. -/
def build_pod_nodes (pods : List RawPod) : List PodNode :=
  pods.map (fun pod =>
    let ports := pod.containers.flatMap (fun container =>
      container.ports.map (fun port =>
        { container := container.name, port := port.container_port,
          protocol := port.protocol.getD .tcp, name := port.name : ContainerPort }))
    let containers_info := pod.containers.map (fun c => (c.name, c.image))
    { id := "pod-" ++ pod.«namespace» ++ "-" ++ pod.name,
      name := pod.name, «namespace» := pod.«namespace»,
      node_id := match pod.node_name with
                 | some n => if n == "" then "node-unscheduled" else "node-" ++ n
                 | none => "node-unscheduled",
      ip := pod.pod_ip,
      phase := pyOrS pod.phase "Unknown",
      labels := pod.labels.getD [],
      service_account := pyOrS pod.service_account_name "default",
      containers := containers_info, ports := ports })

/-- The `endpoints_map` built inside `_build_service_nodes`: for each
Endpoints object with a truthy `subsets`, the concatenated subset address IPs
keyed by `"namespace/name"`. -/
def endpointsMap (endpoints : List RawEndpoints) : List (String × List String) :=
  endpoints.foldl (fun m ep =>
    if ep.subsets.isEmpty then m
    else dictSet m (ep.«namespace» ++ "/" ++ ep.name)
           (ep.subsets.flatMap (fun subset => subset.addresses))) []

/-- The `pod_by_ip` dict built inside `_build_service_nodes`
(`{pod.ip: pod.id for pod in pods if pod.ip}`; a later pod with the same IP
overwrites an earlier one). -/
def podByIp (pods : List PodNode) : List (String × String) :=
  pods.foldl (fun m pod =>
    match pod.ip with
    | some ip => if ip == "" then m else dictSet m ip pod.id
    | none => m) []

/-- `TopologyGraphBuilder._build_service_nodes`. -/
def build_service_nodes (services : List RawService) (endpoints : List RawEndpoints)
    (pods : List PodNode) : List ServiceNode :=
  let eps_map := endpointsMap endpoints
  let pod_by_ip := podByIp pods
  services.map (fun svc =>
    let external_ip := match svc.lb_ingress with
                       | [] => none
                       | ingress :: _ => ingress.ip
    let endpoint_ips := dictGetD eps_map (svc.«namespace» ++ "/" ++ svc.name) []
    let endpoint_pod_ids := endpoint_ips.filterMap (fun ip => dictGet? pod_by_ip ip)
    let ports := svc.ports.map (fun p =>
      { port := p.port,
        target_port := match p.target_port with
                       | some tp => if tp.truthy then tp.str else toString p.port
                       | none => toString p.port,
        protocol := p.protocol.getD .tcp, name := p.name : ServicePort })
    { id := "svc-" ++ svc.«namespace» ++ "-" ++ svc.name,
      name := svc.name, «namespace» := svc.«namespace»,
      service_type := pyOrS svc.type "ClusterIP",
      cluster_ip := svc.cluster_ip, external_ip := external_ip,
      ports := ports, selector := svc.selector.getD [],
      endpoint_pod_ids := endpoint_pod_ids })

/-- `TopologyGraphBuilder._parse_peer`. -/
def parse_peer (peer : RawPeer) : PeerDict :=
  { pod_selector := peer.pod_selector.map (fun ml => ml.getD []),
    namespace_selector := peer.namespace_selector.map (fun ml => ml.getD []),
    ip_block := peer.ip_block }

/-- `TopologyGraphBuilder._matches_selector`: an empty selector matches all;
otherwise all selector entries must be present in the labels. -/
def matches_selector (labels selector : List (String × String)) : Bool :=
  if selector.isEmpty then true
  else selector.all (fun kv => dictGet? labels kv.1 == some kv.2)

/-- `TopologyGraphBuilder._build_network_policy_nodes`. -/
def build_network_policy_nodes (netpols : List RawNetpol) (pods : List PodNode) :
    List NetworkPolicyNode :=
  netpols.map (fun np =>
    let ingress_rules := np.ingress.map (fun rule =>
      { ports := rule.ports.map (fun p => { port := p.port, protocol := p.protocol }),
        from_sources := rule.from_.map parse_peer,
        to_destinations := [] : NetworkPolicyRule })
    let egress_rules := np.egress.map (fun rule =>
      { ports := rule.ports.map (fun p => { port := p.port, protocol := p.protocol }),
        from_sources := [],
        to_destinations := rule.«to».map parse_peer : NetworkPolicyRule })
    let affected_pod_ids := (pods.filter (fun pod =>
      pod.«namespace» == np.«namespace» &&
      matches_selector pod.labels (np.pod_selector_match_labels.getD []))).map (fun p => p.id)
    { id := "netpol-" ++ np.«namespace» ++ "-" ++ np.name,
      name := np.name, «namespace» := np.«namespace»,
      pod_selector := np.pod_selector_match_labels.getD [],
      policy_types := np.policy_types.getD [],
      ingress_rules := ingress_rules, egress_rules := egress_rules,
      affected_pod_ids := affected_pod_ids })

/-- `TopologyGraphBuilder._check_flow_allowed` (`topology_analyzer.py`,
lines 380–399). -/
def check_flow_allowed (pod : PodNode) (port : ContainerPort)
    (netpols : List NetworkPolicyNode) : Bool :=
  let affecting_policies := netpols.filter (fun np => np.affected_pod_ids.contains pod.id)
  if affecting_policies.isEmpty then true
  else affecting_policies.any (fun policy =>
    policy.policy_types.contains "Ingress" &&
    policy.ingress_rules.any (fun rule =>
      rule.ports.isEmpty ||
      rule.ports.any (fun p => p.port == some (PortKey.num port.port))))

/-- `TopologyGraphBuilder._build_communication_flows`. -/
def build_communication_flows (pods : List PodNode) (services : List ServiceNode)
    (netpols : List NetworkPolicyNode) : List NetworkFlow :=
  let service_flows := services.flatMap (fun service =>
    service.endpoint_pod_ids.flatMap (fun pod_id =>
      service.ports.map (fun port =>
        { id := "flow-" ++ service.id ++ "-" ++ pod_id ++ "-" ++ toString port.port,
          source_type := .service, source_id := service.id,
          destination_type := .pod, destination_id := pod_id,
          protocol := port.protocol, port := port.port,
          allowed := true, policy_refs := [],
          path := [service.id, pod_id] : NetworkFlow })))
  let pod_flows := pods.flatMap (fun pod =>
    if pod.ports.isEmpty then []
    else pod.ports.map (fun port =>
      { id := "flow-potential-" ++ pod.id ++ "-" ++ toString port.port,
        source_type := .pod, source_id := "*",
        destination_type := .pod, destination_id := pod.id,
        protocol := port.protocol, port := port.port,
        allowed := check_flow_allowed pod port netpols,
        policy_refs := (netpols.filter (fun np => np.affected_pod_ids.contains pod.id)).map
          (fun np => np.id),
        path := [] : NetworkFlow }))
  service_flows ++ pod_flows

/-- The per-pair body of `_calculate_namespace_connectivity` (lines 410–435):
collect blocking/allowing policy ids among the Ingress-typed policies of the
destination namespace and derive the `allowed` flag. -/
def nsConnEntry (netpols : List NetworkPolicyNode) (src_ns dst_ns : String) :
    NamespaceConnectivity :=
  let relevant := netpols.filter (fun np =>
    np.«namespace» == dst_ns && np.policy_types.contains "Ingress")
  let allowing := (relevant.filter (fun np =>
    np.ingress_rules.any (fun rule =>
      !rule.from_sources.isEmpty &&
      rule.from_sources.any (fun src =>
        match src.namespace_selector with
        | some sel => !sel.isEmpty
        | none => false)))).map (fun np => np.id)
  let blocking := (relevant.filter (fun np =>
    !np.ingress_rules.any (fun rule =>
      !rule.from_sources.isEmpty &&
      rule.from_sources.any (fun src =>
        match src.namespace_selector with
        | some sel => !sel.isEmpty
        | none => false)))).map (fun np => np.id)
  { source_namespace := src_ns, destination_namespace := dst_ns,
    allowed := blocking.isEmpty,
    blocking_policies := blocking, allowing_policies := allowing }

/-- `TopologyGraphBuilder._calculate_namespace_connectivity`: the cross
product of the pod namespaces (a Python `set`; modelled as the deduplicated
namespace list). -/
def calculate_namespace_connectivity (pods : List PodNode)
    (netpols : List NetworkPolicyNode) : List NamespaceConnectivity :=
  let namespaces := (pods.map (fun p => p.«namespace»)).dedup
  namespaces.flatMap (fun src_ns =>
    namespaces.map (fun dst_ns => nsConnEntry netpols src_ns dst_ns))

/-- The outcomes of the five concurrent resource fetches in
`build_topology`.  `nodes`, `pods`, `services` and `endpoints` propagate a
listing failure; `_get_network_policies` has its own `try/except` and is
handled separately in `getNetworkPoliciesFetch`. -/
structure FetchResults where
  nodes : Except String (List RawNode)
  pods : Except String (List RawPod)
  services : Except String (List RawService)
  endpoints : Except String (List RawEndpoints)
  netpols : Except String (List RawNetpol)
deriving Repr

/-- `TopologyGraphBuilder._get_network_policies` (lines 135–144): a listing
failure is caught and an empty list returned. -/
def getNetworkPoliciesFetch (r : Except String (List RawNetpol)) : List RawNetpol :=
  match r with
  | .ok l => l
  | .error _ => []

/-- The pure graph-assembly part of `build_topology` (lines 68–99), applied
once all resource lists are available. -/
def assembleTopology (pi : PlatformInfo) (t : Int) (nodes : List RawNode)
    (pods_raw : List RawPod) (services_raw : List RawService)
    (endpoints_raw : List RawEndpoints) (netpols_raw : List RawNetpol) :
    TopologyGraph :=
  let compute_nodes := build_compute_nodes nodes
  let pods := build_pod_nodes pods_raw
  let services := build_service_nodes services_raw endpoints_raw pods
  let netpols := build_network_policy_nodes netpols_raw pods
  let flows := build_communication_flows pods services netpols
  let ns_connectivity := calculate_namespace_connectivity pods netpols
  let metadata : TopologyMetadata :=
    { cluster_name := pi.cluster_name.getD "unknown", timestamp := t,
      k8s_version := pi.version.getD "unknown",
      platform := pi.type.getD "other",
      node_count := compute_nodes.length, pod_count := pods.length,
      service_count := services.length,
      namespace_count := ((pods.map (fun p => p.«namespace»)).dedup).length }
  { metadata := metadata, compute_nodes := compute_nodes, pods := pods,
    services := services, network_policies := netpols,
    communication_flows := flows, namespace_connectivity := ns_connectivity }

/-- `TopologyGraphBuilder.build_topology` (lines 50–113): `asyncio.gather`
fails if any of the four unguarded listings fails (the network-policy listing
is guarded and degrades to `[]`); otherwise the graph is assembled and
returned. -/
def build_topology (pi : PlatformInfo) (fetch : FetchResults) (t : Int) :
    Except String TopologyGraph := do
  let nodes ← fetch.nodes
  let pods_raw ← fetch.pods
  let services_raw ← fetch.services
  let endpoints_raw ← fetch.endpoints
  let netpols_raw := getNetworkPoliciesFetch fetch.netpols
  .ok (assembleTopology pi t nodes pods_raw services_raw endpoints_raw netpols_raw)

/-! ## `src/backend/src/diagnostics/runner.py` -/

/-- Python's `sub in s` substring test. -/
def strContains (s sub : String) : Bool :=
  sub == "" || (s.splitOn sub).length > 1

/-- A pod of the `azure-arc` namespace as read by the Arc checks
(`pod.metadata.name`, `pod.status.phase`). -/
structure ArcPod where
  name : String
  phase : String
deriving DecidableEq, Repr

/-- Outcomes of the live Kubernetes API calls made by the checks that do not
read the topology: the `/version` probe, `list_namespaced_pod("azure-arc")`
and `list_namespaced_service("kube-system")` (only service names are read). -/
structure ApiEnv where
  api_version : Except String Unit
  arc_pods : Except String (List ArcPod)
  kube_system_service_names : Except String (List String)
deriving Repr

/-- `DiagnosticRunner._check_control_plane_health`, body of the `try` block.
Both degraded paths construct a `RemediationAction` without its required
`type` field, which raises before the check is returned. -/
def checkControlPlaneHealthBody (topo : TopologyGraph) (t : Int) :
    Except String DiagnosticCheck := do
  let control_plane_nodes := topo.compute_nodes.filter (fun n => n.role == "control-plane")
  if control_plane_nodes.isEmpty then
    let _ ← remediationActionNew none none
      (some "Verify cluster setup and control plane deployment") none
    .ok { name := "control_plane_health", category := "control_plane", status := .fail,
          severity := .critical, message := "No control plane nodes found",
          details := [], timestamp := t, remediation_actions := [] }
  else
    let unhealthy := control_plane_nodes.flatMap (fun node =>
      (node.conditions.filter (fun c => c.type == "Ready" && c.status != "True")).map
        (fun _ => node.name))
    if !unhealthy.isEmpty then
      let _ ← remediationActionNew none none
        (some "Investigate node conditions and restart control plane components") none
      .ok { name := "control_plane_health", category := "control_plane", status := .fail,
            severity := .critical,
            message := "Control plane nodes not ready: " ++ String.intercalate ", " unhealthy,
            details := [("unhealthy_nodes", Detail.strList unhealthy)],
            timestamp := t, remediation_actions := [] }
    else
      .ok { name := "control_plane_health", category := "control_plane", status := .pass,
            severity := .info,
            message := "All " ++ toString control_plane_nodes.length ++
              " control plane node(s) healthy",
            details := [], timestamp := t, remediation_actions := [] }

/-- `DiagnosticRunner._check_control_plane_health`: its `except` clause turns
any raised exception into a status-`error` check. -/
def checkControlPlaneHealth (topo : TopologyGraph) (t : Int) : DiagnosticCheck :=
  match checkControlPlaneHealthBody topo t with
  | .ok c => c
  | .error e =>
      { name := "control_plane_health", category := "control_plane", status := .error,
        severity := .high, message := "Check failed: " ++ e,
        details := [], timestamp := t, remediation_actions := [] }

/-- `DiagnosticRunner._check_api_server_connectivity`: the `except` clause
itself constructs a `RemediationAction` without its required `type` field, so
a failing API probe escalates to an exception that escapes the check. -/
def checkApiServerConnectivity (env : ApiEnv) (t : Int) : Except String DiagnosticCheck :=
  match env.api_version with
  | .ok _ =>
      .ok { name := "api_server_connectivity", category := "control_plane", status := .pass,
            severity := .info, message := "API server reachable",
            details := [], timestamp := t, remediation_actions := [] }
  | .error e => do
      let _ ← remediationActionNew none none
        (some "Verify kubeconfig and cluster connectivity") none
      .ok { name := "api_server_connectivity", category := "control_plane", status := .fail,
            severity := .critical, message := "Cannot reach API server: " ++ e,
            details := [], timestamp := t, remediation_actions := [] }

/-- The required Arc agent names checked by `_check_arc_agents_running`. -/
def requiredAgents : List String :=
  ["clusterconnect-agent", "config-agent", "controller-manager",
   "extension-manager", "metrics-agent", "resource-sync-agent"]

/-- `DiagnosticRunner._check_arc_agents_running`, body of the `try` block.
The missing-agents path raises while building its `RemediationAction`. -/
def checkArcAgentsRunningBody (env : ApiEnv) (t : Int) : Except String DiagnosticCheck := do
  let pods ← env.arc_pods
  let running_agents := (pods.filter (fun p => p.phase == "Running")).map (fun p => p.name)
  let missing_agents := requiredAgents.filter (fun agent =>
    !(running_agents.any (fun nm => strContains nm agent)))
  if !missing_agents.isEmpty then
    let _ ← remediationActionNew none none (some "Reinstall or restart Azure Arc agents") none
    .ok { name := "arc_agents_running", category := "arc", status := .fail,
          severity := .high,
          message := "Missing Arc agents: " ++ String.intercalate ", " missing_agents,
          details := [("missing_agents", Detail.strList missing_agents)],
          timestamp := t, remediation_actions := [] }
  else
    .ok { name := "arc_agents_running", category := "arc", status := .pass,
          severity := .info,
          message := "All " ++ toString requiredAgents.length ++ " Arc agents running",
          details := [], timestamp := t, remediation_actions := [] }

/-- `DiagnosticRunner._check_arc_agents_running`: the `except` clause returns
a status-`warn` check (the namespace may simply not exist). -/
def checkArcAgentsRunning (env : ApiEnv) (t : Int) : DiagnosticCheck :=
  match checkArcAgentsRunningBody env t with
  | .ok c => c
  | .error e =>
      { name := "arc_agents_running", category := "arc", status := .warn,
        severity := .low, message := "Arc agents check skipped: " ++ e,
        details := [], timestamp := t, remediation_actions := [] }

/-- `DiagnosticRunner._check_arc_connectivity`, body of the `try` block. -/
def checkArcConnectivityBody (env : ApiEnv) (t : Int) : Except String DiagnosticCheck := do
  let pods ← env.arc_pods
  let connect_agent_pods := pods.filter (fun p => strContains p.name "clusterconnect-agent")
  if connect_agent_pods.isEmpty then
    .ok { name := "arc_connectivity", category := "arc", status := .warn,
          severity := .medium,
          message := "No clusterconnect-agent found to verify connectivity",
          details := [], timestamp := t, remediation_actions := [] }
  else
    .ok { name := "arc_connectivity", category := "arc", status := .pass,
          severity := .info, message := "Arc connectivity operational",
          details := [], timestamp := t, remediation_actions := [] }

/-- `DiagnosticRunner._check_arc_connectivity` with its `except` clause. -/
def checkArcConnectivity (env : ApiEnv) (t : Int) : DiagnosticCheck :=
  match checkArcConnectivityBody env t with
  | .ok c => c
  | .error e =>
      { name := "arc_connectivity", category := "arc", status := .warn,
        severity := .low, message := "Arc connectivity check skipped: " ++ e,
        details := [], timestamp := t, remediation_actions := [] }

/-- `DiagnosticRunner._check_dns_resolution`, body of the `try` block.  The
no-DNS path raises while building its `RemediationAction`. -/
def checkDnsResolutionBody (env : ApiEnv) (t : Int) : Except String DiagnosticCheck := do
  let svc_names ← env.kube_system_service_names
  let dns_services := svc_names.filter (fun nm => strContains nm.toLower "dns")
  match dns_services with
  | [] =>
      let _ ← remediationActionNew none none (some "Deploy CoreDNS or kube-dns") none
      .ok { name := "dns_resolution", category := "networking", status := .fail,
            severity := .high, message := "No DNS service found in kube-system",
            details := [], timestamp := t, remediation_actions := [] }
  | d :: _ =>
      .ok { name := "dns_resolution", category := "networking", status := .pass,
            severity := .info, message := "DNS service available: " ++ d,
            details := [], timestamp := t, remediation_actions := [] }

/-- `DiagnosticRunner._check_dns_resolution` with its `except` clause. -/
def checkDnsResolution (env : ApiEnv) (t : Int) : DiagnosticCheck :=
  match checkDnsResolutionBody env t with
  | .ok c => c
  | .error e =>
      { name := "dns_resolution", category := "networking", status := .error,
        severity := .medium, message := "DNS check failed: " ++ e,
        details := [], timestamp := t, remediation_actions := [] }

/-- `DiagnosticRunner._check_network_policies` (no `try/except`; no
`RemediationAction` on any path, so it is total). -/
def checkNetworkPolicies (topo : TopologyGraph) (t : Int) : DiagnosticCheck :=
  if topo.network_policies.isEmpty then
    { name := "network_policies", category := "networking", status := .warn,
      severity := .low,
      message := "No NetworkPolicies defined - all traffic allowed by default",
      details := [], timestamp := t, remediation_actions := [] }
  else
    let permissive_policies := (topo.network_policies.filter (fun np =>
      np.ingress_rules.isEmpty && np.policy_types.contains "Ingress")).map (fun np => np.name)
    if !permissive_policies.isEmpty then
      { name := "network_policies", category := "networking", status := .warn,
        severity := .medium,
        message := "Overly permissive policies: " ++ String.intercalate ", " permissive_policies,
        details := [("permissive_policies", Detail.strList permissive_policies)],
        timestamp := t, remediation_actions := [] }
    else
      { name := "network_policies", category := "networking", status := .pass,
        severity := .info,
        message := toString topo.network_policies.length ++ " NetworkPolicies configured",
        details := [], timestamp := t, remediation_actions := [] }

/-- `DiagnosticRunner._check_service_endpoints` (no `try/except`): the
endpoint-less path raises while building its `RemediationAction`, and the
exception escapes the check into `run_all_checks`. -/
def checkServiceEndpoints (topo : TopologyGraph) (t : Int) : Except String DiagnosticCheck := do
  let services_without_endpoints := topo.services.filter (fun svc => svc.endpoint_pod_ids.isEmpty)
  if !services_without_endpoints.isEmpty then
    let svc_names := (services_without_endpoints.map (fun s => s.name)).take 5
    let _ ← remediationActionNew none none (some "Verify pod selectors match running pods") none
    .ok { name := "service_endpoints", category := "networking", status := .warn,
          severity := .medium,
          message := toString services_without_endpoints.length ++
            " services have no endpoints: " ++ String.intercalate ", " svc_names,
          details := [("services_without_endpoints",
            Detail.strList (services_without_endpoints.map (fun s => s.name)))],
          timestamp := t, remediation_actions := [] }
  else
    .ok { name := "service_endpoints", category := "networking", status := .pass,
          severity := .info,
          message := "All " ++ toString topo.services.length ++ " services have endpoints",
          details := [], timestamp := t, remediation_actions := [] }

/-- `DiagnosticRunner._check_node_conditions` (no `try/except`): the
pressure path raises while building its `RemediationAction`. -/
def checkNodeConditions (topo : TopologyGraph) (t : Int) : Except String DiagnosticCheck := do
  let problem_nodes := topo.compute_nodes.flatMap (fun node =>
    (node.conditions.filter (fun c =>
      (c.type == "MemoryPressure" || c.type == "DiskPressure" || c.type == "PIDPressure") &&
      c.status == "True")).map (fun c => (node.name, c.type, c.reason.getD "unknown")))
  if !problem_nodes.isEmpty then
    let _ ← remediationActionNew none none
      (some "Investigate resource pressure and evict pods if needed") none
    .ok { name := "node_conditions", category := "nodes", status := .fail,
          severity := .high,
          message := toString problem_nodes.length ++ " node(s) have pressure conditions",
          details := [("problem_nodes", Detail.recList (problem_nodes.map (fun p =>
            [("node", p.1), ("condition", p.2.1), ("reason", p.2.2)])))],
          timestamp := t, remediation_actions := [] }
  else
    .ok { name := "node_conditions", category := "nodes", status := .pass,
          severity := .info, message := "All nodes have healthy conditions",
          details := [], timestamp := t, remediation_actions := [] }

/-- `DiagnosticRunner._check_node_resources` (a stub: always passes). -/
def checkNodeResources (topo : TopologyGraph) (t : Int) : DiagnosticCheck :=
  { name := "node_resources", category := "nodes", status := .pass,
    severity := .info,
    message := "Monitoring " ++ toString topo.compute_nodes.length ++
      " node(s) for resource availability",
    details := [], timestamp := t, remediation_actions := [] }

/-- `DiagnosticRunner._check_pod_health` (no `try/except`): the unhealthy
path raises while building its `RemediationAction`. -/
def checkPodHealth (topo : TopologyGraph) (t : Int) : Except String DiagnosticCheck := do
  let unhealthy_pods := topo.pods.filter (fun p =>
    !(p.phase == "Running" || p.phase == "Succeeded"))
  if !unhealthy_pods.isEmpty then
    let pod_names := (unhealthy_pods.take 5).map (fun p => p.«namespace» ++ "/" ++ p.name)
    let _ ← remediationActionNew none none (some "Investigate pod failures") none
    .ok { name := "pod_health", category := "workloads", status := .fail,
          severity := .medium,
          message := toString unhealthy_pods.length ++ " pods not healthy: " ++
            String.intercalate ", " pod_names,
          details := [("unhealthy_pods", Detail.strList pod_names)],
          timestamp := t, remediation_actions := [] }
  else
    .ok { name := "pod_health", category := "workloads", status := .pass,
          severity := .info,
          message := "All " ++ toString topo.pods.length ++ " pods healthy",
          details := [], timestamp := t, remediation_actions := [] }

/-- `DiagnosticRunner._check_restart_loops` (a stub: always passes). -/
def checkRestartLoops (t : Int) : DiagnosticCheck :=
  { name := "restart_loops", category := "workloads", status := .pass,
    severity := .info, message := "No restart loops detected",
    details := [], timestamp := t, remediation_actions := [] }

/-- The check-collection phase of `run_all_checks` (`runner.py` lines 47–68):
eleven sequential appends; an exception escaping any unguarded check aborts
the whole run. -/
def runChecks (topo : TopologyGraph) (env : ApiEnv) (t : Int) :
    Except String (List DiagnosticCheck) := do
  let c1 := checkControlPlaneHealth topo t
  let c2 ← checkApiServerConnectivity env t
  let c3 := checkArcAgentsRunning env t
  let c4 := checkArcConnectivity env t
  let c5 := checkDnsResolution env t
  let c6 := checkNetworkPolicies topo t
  let c7 ← checkServiceEndpoints topo t
  let c8 ← checkNodeConditions topo t
  let c9 := checkNodeResources topo t
  let c10 ← checkPodHealth topo t
  let c11 := checkRestartLoops t
  .ok [c1, c2, c3, c4, c5, c6, c7, c8, c9, c10, c11]

/-- The summary dict built by `run_all_checks` (lines 71–76). -/
def computeSummary (checks : List DiagnosticCheck) : List (String × Nat) :=
  [("pass", (checks.filter (fun c => c.status == .pass)).length),
   ("warn", (checks.filter (fun c => c.status == .warn)).length),
   ("fail", (checks.filter (fun c => c.status == .fail)).length),
   ("error", (checks.filter (fun c => c.status == .error)).length)]

/-- The overall-health derivation of `run_all_checks` (lines 78–84). -/
def computeOverallHealth (summary : List (String × Nat)) : DiagnosticStatus :=
  if dictGetD summary "fail" 0 > 0 || dictGetD summary "error" 0 > 0 then .fail
  else if dictGetD summary "warn" 0 > 0 then .warn
  else .pass

/-- `DiagnosticRunner.run_all_checks` (lines 36–103): run the battery, build
the summary and overall health, then construct the report.  The construction
passes no `platform`, a required field of `DiagnosticReport`, so it raises. -/
def runAllChecks (topo : TopologyGraph) (env : ApiEnv) (t : Int) :
    Except String DiagnosticReport := do
  let checks ← runChecks topo env t
  let summary := computeSummary checks
  let overall_health := computeOverallHealth summary
  diagnosticReportNew (some topo.metadata.cluster_name) none t checks summary overall_health

/-- A check with its construction-time timestamp normalised (used to state
what is equal across two runs at different times). -/
def stripCheckTime (c : DiagnosticCheck) : DiagnosticCheck :=
  { c with timestamp := 0 }

/-! ## `src/backend/src/models/cluster.py` and
`src/backend/src/services/context.py` -/

/-- `PodStatus` (`cluster.py`); the phase enum is kept as a string. -/
structure PodStatus where
  name : String
  «namespace» : String
  phase : String
  node : String
  containers : List String
  ready : Nat
  total : Nat
  restarts : Nat
  created_at : Int
  ip : Option String
  labels : List (String × String)
deriving DecidableEq, Repr

/-- `Event` (`cluster.py`). -/
structure Event where
  timestamp : Int
  «namespace» : String
  name : String
  type : String
  reason : String
  message : String
  involved_object : String
deriving DecidableEq, Repr

/-- `ClusterStatus` (`cluster.py`). -/
structure ClusterStatus where
  timestamp : Int
  pods : List PodStatus
  events : List Event
deriving DecidableEq, Repr

/-- `ContextBuffer` state: `_snapshots` is a `deque(maxlen=max_snapshots)`
held oldest-first. -/
structure ContextBuffer where
  retention_hours : Int
  max_snapshots : Nat
  snapshots : List ClusterStatus
deriving DecidableEq, Repr

/-- `ContextBuffer._prune_old_data`: pop from the left while the oldest
snapshot is older than `now - retention_hours` (timestamps in seconds). -/
def pruneOldData (retention_hours : Int) (now : Int) (l : List ClusterStatus) :
    List ClusterStatus :=
  l.dropWhile (fun s => s.timestamp < now - retention_hours * 3600)

/-- Appending to a `deque(maxlen=n)`: when full, the oldest entries are
discarded from the left. -/
def dequeAppend (maxlen : Nat) (l : List ClusterStatus) (x : ClusterStatus) :
    List ClusterStatus :=
  let l2 := l ++ [x]
  if l2.length > maxlen then l2.drop (l2.length - maxlen) else l2

/-- `ContextBuffer.add` (`context.py` lines 39–56): prune by age, then append
into the capacity-capped deque. -/
def ContextBuffer.add (b : ContextBuffer) (now : Int) (status : ClusterStatus) :
    ContextBuffer :=
  { b with snapshots :=
      dequeAppend b.max_snapshots (pruneOldData b.retention_hours now b.snapshots) status }

/-- `ContextBuffer.get_recent` (`context.py` lines 58–78).  Note
`hours = hours or self.retention_hours`: both `None` **and `0`** fall back to
the retention window. -/
def ContextBuffer.get_recent (b : ContextBuffer) (now : Int) (hours : Option Int) :
    List ClusterStatus :=
  let h := match hours with
           | none => b.retention_hours
           | some v => if v == 0 then b.retention_hours else v
  let cutoff := now - h * 3600
  b.snapshots.filter (fun s => s.timestamp ≥ cutoff)

/-- `ContextBuffer.get_latest`. -/
def ContextBuffer.get_latest (b : ContextBuffer) : Option ClusterStatus :=
  b.snapshots.getLast?

/-! ## `src/backend/src/reasoning/loop.py` -/

/-- `LoopPhase` (`loop.py`). -/
inductive LoopPhase where
  | observe
  | reason
  | act
  | idle
deriving DecidableEq, Repr

/-- `Observation` (`loop.py`); `metrics` and `events` are placeholder
payloads in the source. -/
structure Observation where
  timestamp : Int
  topology : TopologyGraph
  metrics : List (String × List String)
  events : List String
deriving DecidableEq, Repr

/-- `Reasoning` (`loop.py`); `confidence` is modelled as a rational. -/
structure Reasoning where
  timestamp : Int
  anomalies : List String
  root_causes : List String
  confidence : Rat
  reasoning_chain : List String
  diagnostic_report : DiagnosticReport
deriving DecidableEq, Repr

/-- One entry of `ActionPlan.actions`
(`{"type": ..., "command": ..., "reason": ...}`). -/
structure ActionItem where
  type : String
  command : String
  reason : String
deriving DecidableEq, Repr

/-- `ActionPlan` (`loop.py`). -/
structure ActionPlan where
  timestamp : Int
  priority : Nat
  actions : List ActionItem
  expected_outcome : String
  rollback_plan : Option String
deriving DecidableEq, Repr

/-- The mutable state of a `ReasoningLoop` instance. -/
structure LoopState where
  phase : LoopPhase
  last_observation : Option Observation
  last_reasoning : Option Reasoning
  last_action_plan : Option ActionPlan
  running : Bool
deriving DecidableEq, Repr

/-- The message of the `AttributeError` raised when `_reason` / `_act`
evaluate `check.remediation`: `DiagnosticCheck` declares `remediation_actions`
but no field named `remediation`. -/
def remediationAttrErrMsg : String :=
  "AttributeError: DiagnosticCheck object has no attribute remediation"

/-- `ReasoningLoop._observe` minus its phase assignment: wrap the
`build_topology` outcome into an `Observation` (metrics/events placeholders),
re-raising a builder failure. -/
def observeBody (topoResult : Except String TopologyGraph) (t : Int) :
    Except String Observation :=
  topoResult.map (fun topology =>
    { timestamp := t, topology := topology,
      metrics := [("node_cpu_usage", []), ("node_memory_usage", []),
                  ("pod_restart_count", []), ("network_errors", [])],
      events := [] })

/-- `ReasoningLoop._reason` minus its phase assignment: run the checks, then
walk the report.  The root-cause loop (`loop.py` lines 221–230) evaluates
`check.remediation` for every status-`fail` check; `DiagnosticCheck` has no
`remediation` field, so the first failed check raises `AttributeError`
(re-raised by the method's `except` clause). -/
def reasonBody (reportResult : Except String DiagnosticReport) (t : Int) :
    Except String Reasoning := do
  let diagnostic_report ← reportResult
  let anomalies := (diagnostic_report.checks.filter (fun c => c.status == .fail)).map
    (fun c => c.name ++ ": " ++ c.message)
  if diagnostic_report.checks.any (fun c => c.status == .fail) then
    .error remediationAttrErrMsg
  else
    let total_checks := diagnostic_report.checks.length
    let failed_checks := dictGetD diagnostic_report.summary "fail" 0
    let confidence : Rat :=
      if total_checks > 0 then 1 - (failed_checks : Rat) / (total_checks : Rat) else 1
    .ok { timestamp := t, anomalies := anomalies, root_causes := [],
          confidence := confidence, reasoning_chain := [],
          diagnostic_report := diagnostic_report }

/-- `ReasoningLoop._act` minus its phase assignment (`loop.py` lines
259–309).  The actions loop evaluates `check.remediation` for each
status-`fail` check (after the short-circuiting `check.status == FAIL and`),
raising `AttributeError` if one exists; otherwise no action is generated. -/
def actBody (reasoning : Reasoning) (t : Int) : Except String ActionPlan := do
  let critical_count := (reasoning.diagnostic_report.checks.filter (fun c =>
    c.severity == .critical && c.status == .fail)).length
  let priority : Nat := if critical_count > 0 then 1 else 2
  if reasoning.diagnostic_report.checks.any (fun c => c.status == .fail) then
    .error remediationAttrErrMsg
  else
    .ok { timestamp := t, priority := priority, actions := [],
          expected_outcome := "Resolve " ++ toString reasoning.root_causes.length ++
            " identified issues: " ++ String.intercalate ", " (reasoning.root_causes.take 3),
          rollback_plan := some "Monitor cluster health for 5 minutes after applying changes" }

/-- The externally supplied outcomes of one tick: what
`topology_builder.build_topology()` and `diagnostic_runner.run_all_checks(...)`
return (or raise) when awaited. -/
structure TickOutcomes where
  topology : Except String TopologyGraph
  report : Except String DiagnosticReport
deriving Repr

/-- The successive loop states during one iteration of `ReasoningLoop._loop`
(lines 122–159), one entry per state mutation: `_observe` sets
`phase := OBSERVE`; on success `last_observation` is stored; `_reason` sets
`phase := REASON`; on success `last_reasoning` is stored; when
`overall_health != PASS`, `_act` sets `phase := ACT` and on success
`last_action_plan` is stored, otherwise `last_action_plan := None`.  A raised
exception ends the iteration (caught by the `except` in `_loop`); nothing
ever sets the phase back to `IDLE`. -/
def tickTrace (s : LoopState) (o : TickOutcomes) (t : Int) : List LoopState :=
  let s1 := { s with phase := .observe }
  match observeBody o.topology t with
  | .error _ => [s1]
  | .ok observation =>
    let s2 := { s1 with last_observation := some observation }
    let s3 := { s2 with phase := .reason }
    match reasonBody o.report t with
    | .error _ => [s1, s2, s3]
    | .ok reasoning =>
      let s4 := { s3 with last_reasoning := some reasoning }
      if reasoning.diagnostic_report.overall_health ≠ .pass then
        let s5 := { s4 with phase := .act }
        match actBody reasoning t with
        | .error _ => [s1, s2, s3, s4, s5]
        | .ok action_plan => [s1, s2, s3, s4, s5,
            { s5 with last_action_plan := some action_plan }]
      else
        [s1, s2, s3, s4, { s4 with last_action_plan := none }]

/-- The loop state after one full iteration of `_loop` (the last state of its
trace). -/
def tick (s : LoopState) (o : TickOutcomes) (t : Int) : LoopState :=
  ((tickTrace s o t).getLast?).getD s

/-- The `running`/`phase` portion of the dict returned by
`ReasoningLoop.get_status`. -/
structure LoopStatus where
  running : Bool
  phase : LoopPhase
deriving DecidableEq, Repr

/-- `ReasoningLoop.get_status` (restricted to the fields the claims
observe). -/
def getStatus (s : LoopState) : LoopStatus :=
  { running := s.running, phase := s.phase }

/-- The state of a freshly constructed `ReasoningLoop` (`__init__`). -/
def initialLoopState : LoopState :=
  { phase := .idle, last_observation := none, last_reasoning := none,
    last_action_plan := none, running := false }

/-! ## Decidability of `Except` equality (for concrete evaluations) -/

instance {ε α : Type} [DecidableEq ε] [DecidableEq α] : DecidableEq (Except ε α) := by
  intro a b
  cases a <;> cases b
  case error.error e f => exact decidable_of_iff (e = f) (by simp)
  case ok.ok x y => exact decidable_of_iff (x = y) (by simp)
  all_goals exact isFalse (by intro h; cases h)

/-! ## Concrete fixtures used by the theorems below -/

/-- A platform-info dict as produced by the Kubernetes client. -/
def testPI : PlatformInfo :=
  { cluster_name := some "test-cluster", version := some "1.28", type := some "aks-arc" }

def emptyMetadata : TopologyMetadata :=
  { cluster_name := "test-cluster", timestamp := 0, k8s_version := "unknown",
    platform := "other", node_count := 0, pod_count := 0, service_count := 0,
    namespace_count := 0 }

/-- A topology snapshot of an empty cluster. -/
def emptyTopo : TopologyGraph :=
  { metadata := emptyMetadata, compute_nodes := [], pods := [], services := [],
    network_policies := [], communication_flows := [], namespace_connectivity := [] }

/-- API outcomes of a healthy environment: version probe succeeds, the
`azure-arc` namespace has no pods, `kube-system` exposes `kube-dns`. -/
def healthyEnv : ApiEnv :=
  { api_version := .ok (), arc_pods := .ok [],
    kube_system_service_names := .ok ["kube-dns"] }

/-- A service whose selector matched no pod: `endpoint_pod_ids = []`. -/
def svcNoEp : ServiceNode :=
  { id := "svc-default-web", name := "web", «namespace» := "default",
    service_type := "ClusterIP", cluster_ip := some "10.96.0.10", external_ip := none,
    ports := [], selector := [("app", "web")], endpoint_pod_ids := [] }

/-- A status-`error` diagnostic check. -/
def errCheckFx : DiagnosticCheck :=
  { name := "c", category := "x", status := .error, severity := .high, message := "m",
    details := [], timestamp := 0, remediation_actions := [] }

/-- A status-`pass` diagnostic check. -/
def passCheckFx : DiagnosticCheck :=
  { name := "c2", category := "x", status := .pass, severity := .info, message := "m2",
    details := [], timestamp := 0, remediation_actions := [] }

/-- The summary dict shape maintained by `add_check` starting from the
default summary. -/
def mkSummary (tot pa wa fa er : Nat) : List (String × Nat) :=
  [("total", tot), ("passed", pa), ("warnings", wa), ("failed", fa), ("errors", er)]

/-- The report obtained by adding a list of checks to a fresh report. -/
def reportOf (cs : List DiagnosticCheck) (c0 p0 : String) (t0 : Int) : DiagnosticReport :=
  cs.foldl DiagnosticReport.add_check (emptyReport c0 p0 t0)

/-- `summary.failed + summary.errors` of a report built by `add_check`. -/
def failedPlusErrors (r : DiagnosticReport) : Nat :=
  dictGetD r.summary "failed" 0 + dictGetD r.summary "errors" 0

/-- `summary.warnings` of a report built by `add_check`. -/
def warningsOf (r : DiagnosticReport) : Nat :=
  dictGetD r.summary "warnings" 0

/-- A pod-less, event-less cluster snapshot at a given timestamp. -/
def snapAt (ts : Int) : ClusterStatus := { timestamp := ts, pods := [], events := [] }

/-- A buffer holding one snapshot that is one hour old at `now = 1000000`. -/
def bufOldSnap : ContextBuffer :=
  { retention_hours := 24, max_snapshots := 1000, snapshots := [snapAt 996400] }

/-- A buffer at capacity (2 of 2) with fresh snapshots. -/
def bufFull : ContextBuffer :=
  { retention_hours := 24, max_snapshots := 2,
    snapshots := [snapAt 999000, snapAt 999500] }

/-- An exposed container port. -/
def flowPort : ContainerPort := { container := "web", port := 80, protocol := .tcp, name := none }

/-- A pod exposing `flowPort`. -/
def flowPod : PodNode :=
  { id := "pod-default-web", name := "web", «namespace» := "default", node_id := "node-n1",
    ip := some "10.0.0.1", phase := "Running", labels := [], service_account := "default",
    containers := [], ports := [flowPort] }

/-- A policy affecting `flowPod` that declares only the `Egress` type yet
carries an unrestricted ingress rule. -/
def egressOnlyPolicy : NetworkPolicyNode :=
  { id := "netpol-default-egress", name := "egress", «namespace» := "default",
    pod_selector := [], policy_types := ["Egress"],
    ingress_rules := [{ ports := [], from_sources := [], to_destinations := [] }],
    egress_rules := [], affected_pod_ids := ["pod-default-web"] }

/-- The allowed-flow verdict exactly as the claim words it (refinement
comparison definition, written from the spec's words): if no policy affects
the destination pod, traffic is allowed; otherwise allowed iff at least one
ingress rule on some affecting policy either declares no port restriction or
explicitly lists the port — with **no** condition on the policy's
`policy_types`. -/
def specFlowAllowed (pod : PodNode) (port : ContainerPort)
    (netpols : List NetworkPolicyNode) : Bool :=
  let affecting_policies := netpols.filter (fun np => np.affected_pod_ids.contains pod.id)
  if affecting_policies.isEmpty then true
  else affecting_policies.any (fun policy =>
    policy.ingress_rules.any (fun rule =>
      rule.ports.isEmpty ||
      rule.ports.any (fun p => p.port == some (PortKey.num port.port))))

/-- A raw pod scheduled on node `x`. -/
def rawPodOnX : RawPod :=
  { name := "p1", «namespace» := "default", node_name := some "x",
    pod_ip := some "10.0.0.9", phase := some "Running", labels := none,
    service_account_name := none, containers := [] }

/-- Fetch results whose node listing does not contain the node the pod is
scheduled on. -/
def danglingFetch : FetchResults :=
  { nodes := .ok [], pods := .ok [rawPodOnX], services := .ok [], endpoints := .ok [],
    netpols := .ok [] }

/-- Fetch results where only the network-policy listing failed. -/
def netpolFailFetch : FetchResults :=
  { nodes := .ok [], pods := .ok [], services := .ok [], endpoints := .ok [],
    netpols := .error "the server could not find the requested resource" }

/-- First half of the C7 claim: every pod's `node_id` is an existing compute
node id or the unscheduled sentinel. -/
def podRefIntegrity (g : TopologyGraph) : Bool :=
  g.pods.all (fun p =>
    p.node_id == "node-unscheduled" || g.compute_nodes.any (fun n => n.id == p.node_id))

/-- Second half of the C7 claim: every id in a service's `endpoint_pod_ids`
is an existing pod id. -/
def svcRefIntegrity (g : TopologyGraph) : Bool :=
  g.services.all (fun s =>
    s.endpoint_pod_ids.all (fun pid => g.pods.any (fun p => p.id == pid)))

/-- The raw node named `x`. -/
def rawNodeX : RawNode :=
  { name := "x", labels := none, addresses := [("InternalIP", "192.168.1.10")],
    capacity := [], allocatable := [], conditions := [] }

/-- Fetch results where the pod's node is present in the node listing. -/
def goodFetch : FetchResults :=
  { nodes := .ok [rawNodeX], pods := .ok [rawPodOnX], services := .ok [],
    endpoints := .ok [], netpols := .ok [] }

/-- The graph built from `goodFetch`. -/
def goodGraph : TopologyGraph :=
  assembleTopology testPI 0 [rawNodeX] [rawPodOnX] [] [] []

/-- A healthy diagnostic report (overall `pass`). -/
def passReport : DiagnosticReport :=
  { cluster_name := "c", platform := "p", timestamp := 0, checks := [],
    summary := [("pass", 0), ("warn", 0), ("fail", 0), ("error", 0)],
    overall_health := .pass }

/-- A degraded diagnostic report containing one status-`fail` check. -/
def failCheckFx : DiagnosticCheck :=
  { name := "pod_health", category := "workloads", status := .fail, severity := .medium,
    message := "1 pods not healthy: default/x", details := [], timestamp := 0,
    remediation_actions := [] }

def failReport : DiagnosticReport :=
  { cluster_name := "c", platform := "p", timestamp := 0, checks := [failCheckFx],
    summary := [("pass", 0), ("warn", 0), ("fail", 1), ("error", 0)],
    overall_health := .fail }

/-- A started loop, no tick completed yet. -/
def runningState : LoopState := { initialLoopState with running := true }

/-- Tick outcomes of a healthy tick. -/
def okOutcomes : TickOutcomes := { topology := .ok emptyTopo, report := .ok passReport }

/-- Tick outcomes whose report contains a failing check. -/
def failOutcomes : TickOutcomes := { topology := .ok emptyTopo, report := .ok failReport }

/-- The observation produced by a successful `_observe` over `emptyTopo`. -/
def obs0 : Observation :=
  { timestamp := 0, topology := emptyTopo,
    metrics := [("node_cpu_usage", []), ("node_memory_usage", []),
                ("pod_restart_count", []), ("network_errors", [])],
    events := [] }

/-- The reasoning produced by a successful `_reason` over `passReport`. -/
def rsn0 : Reasoning :=
  { timestamp := 0, anomalies := [], root_causes := [], confidence := 1,
    reasoning_chain := [], diagnostic_report := passReport }

/-- A pod in namespace `a`. -/
def podNsA : PodNode :=
  { id := "pod-a-p", name := "p", «namespace» := "a", node_id := "node-unscheduled",
    ip := none, phase := "Pending", labels := [], service_account := "default",
    containers := [], ports := [] }

/-- A pod in namespace `b`. -/
def podNsB : PodNode :=
  { id := "pod-b-q", name := "q", «namespace» := "b", node_id := "node-unscheduled",
    ip := none, phase := "Pending", labels := [], service_account := "default",
    containers := [], ports := [] }

/-- The invariant maintained by `add_check` over reports grown from an empty
report: the summary dict keeps its five-key shape with exact status counts,
and `overall_health` is characterised by those counts (with `error`
reachable only as the verbatim first status). -/
def AddCheckInv (r : DiagnosticReport) : Prop :=
  ∃ tot pa wa fa er : Nat,
    r.summary = mkSummary tot pa wa fa er ∧ tot = r.checks.length ∧
    ((r.overall_health = .fail ∨ r.overall_health = .error) ↔ 0 < fa + er) ∧
    (r.overall_health = .warn ↔ (fa + er = 0 ∧ 0 < wa)) ∧
    (r.overall_health = .pass ↔ (fa + er = 0 ∧ wa = 0 ∧ 0 < tot)) ∧
    (r.overall_health = .unknown ↔ tot = 0)

/-! ## Helper lemmas (shared) -/

theorem exceptMapCases {α β : Type} {f : α → β} {a b : Except String α}
    (h : Except.map f a = Except.map f b) :
    (∃ x y, a = .ok x ∧ b = .ok y ∧ f x = f y) ∨ (∃ e, a = .error e ∧ b = .error e) := by
  cases a with
  | ok x =>
    cases b with
    | ok y =>
      left
      refine ⟨x, y, rfl, rfl, ?_⟩
      simpa [Except.map] using h
    | error e => simp [Except.map] at h
  | error e =>
    cases b with
    | ok y => simp [Except.map] at h
    | error e2 =>
      right
      simp [Except.map] at h
      exact ⟨e2, by rw [h], rfl⟩

theorem runAllChecks_never_returns (topo : TopologyGraph) (env : ApiEnv) (t : Int) :
    ∃ e, runAllChecks topo env t = .error e := by
  unfold runAllChecks
  cases h : runChecks topo env t with
  | error e => exact ⟨e, by simp [h, bind, Except.bind]⟩
  | ok cs =>
    exact ⟨"1 validation error for DiagnosticReport: platform: Field required",
           by simp [h, bind, Except.bind, diagnosticReportNew]⟩

/-! ## C2 -/

/-- **C2 (counterexample).**  The claim says `build_topology` raises if any of
the five resource listings fails.  With only the network-policy listing
failing, the build succeeds and returns a graph with an empty policy list:
`_get_network_policies` swallows its failure. -/
theorem build_topology_returns_graph_despite_netpol_failure :
    (build_topology testPI netpolFailFetch 0).isOk = true ∧
    (build_topology testPI netpolFailFetch 0).map (fun g => g.network_policies) =
      .ok [] := ⟨rfl, rfl⟩

/-- **C2 (amended).**  `build_topology` returns a graph iff the node, pod,
service and endpoints listings all succeed; a network-policy listing failure
is caught by `_get_network_policies` and degrades to an empty policy list
instead of aborting the build. -/
theorem build_topology_ok_iff_unguarded_fetches_ok
    (pi : PlatformInfo) (f : FetchResults) (t : Int) :
    (build_topology pi f t).isOk = true ↔
      (f.nodes.isOk = true ∧ f.pods.isOk = true ∧ f.services.isOk = true ∧
       f.endpoints.isOk = true) := by
  obtain ⟨n, p, s, e, np⟩ := f
  cases n <;> cases p <;> cases s <;> cases e <;>
    simp [build_topology, bind, Except.bind, Except.isOk, Except.toBool]

/-! ## C3 -/

/-- **C3 (code bug).**  The claim (and the spec's contract) says
`run_all_checks` never raises and contains a failing sub-computation as a
status-`error` check.  In fact it raises on **every** input: the final
`DiagnosticReport(...)` construction omits the required `platform` field; and
on a topology with an endpoint-less service it aborts even earlier inside
`_check_service_endpoints` (no `try/except`), whose `RemediationAction` is
built without the required `type` field. -/
theorem run_all_checks_raises_instead_of_degrading :
    runAllChecks emptyTopo healthyEnv 0 =
      .error "1 validation error for DiagnosticReport: platform: Field required" ∧
    runAllChecks { emptyTopo with services := [svcNoEp] } healthyEnv 0 =
      .error remediationValidationMsg := ⟨rfl, rfl⟩

/-! ## C5 -/

/-- **C5 (counterexample).**  `get_recent(hours=0)` falls back to the
retention window (`hours or self.retention_hours` treats `0` as unset) and
returns a snapshot one hour old — older than `now − 0` hours. -/
theorem get_recent_zero_hours_returns_old_snapshot :
    ContextBuffer.get_recent bufOldSnap 1000000 (some 0) = [snapAt 996400] ∧
    (snapAt 996400).timestamp < 1000000 - 0 * 3600 := ⟨rfl, by decide⟩

/-! ## C6 -/

/-- **C6 (counterexample).**  A policy that affects the pod, carries an
unrestricted ingress rule, but declares only the `Egress` policy type:
the claim's verdict (`specFlowAllowed`, no policy-type guard) allows the
flow, while `_check_flow_allowed` denies it because it only consults
policies whose `policy_types` contain `Ingress`. -/
theorem check_flow_allowed_differs_from_claim_verdict :
    check_flow_allowed flowPod flowPort [egressOnlyPolicy] = false ∧
    specFlowAllowed flowPod flowPort [egressOnlyPolicy] = true := ⟨rfl, rfl⟩

/-- **C6 (amended).**  `_check_flow_allowed` returns true iff no policy
affects the destination pod, or some affecting policy **whose `policy_types`
include `Ingress`** has an ingress rule that declares no port restriction or
explicitly lists the port. -/
theorem check_flow_allowed_characterisation
    (pod : PodNode) (port : ContainerPort) (netpols : List NetworkPolicyNode) :
    check_flow_allowed pod port netpols = true ↔
      ((∀ np ∈ netpols, pod.id ∉ np.affected_pod_ids) ∨
       ∃ np ∈ netpols, pod.id ∈ np.affected_pod_ids ∧
         "Ingress" ∈ np.policy_types ∧
         ∃ rule ∈ np.ingress_rules,
           (rule.ports = [] ∨ ∃ p ∈ rule.ports, p.port = some (PortKey.num port.port))) := by
  unfold check_flow_allowed
  by_cases hemp : (netpols.filter (fun np => np.affected_pod_ids.contains pod.id)).isEmpty = true
  · rw [if_pos hemp]
    rw [List.isEmpty_iff] at hemp
    constructor
    · intro _
      left
      intro np hnp hmem
      have hin : np ∈ netpols.filter (fun np => np.affected_pod_ids.contains pod.id) := by
        rw [List.mem_filter]
        exact ⟨hnp, by simpa using hmem⟩
      rw [hemp] at hin
      simp at hin
    · intro _
      rfl
  · rw [if_neg hemp]
    rw [List.any_eq_true]
    constructor
    · rintro ⟨np, hnp, hcond⟩
      rw [List.mem_filter] at hnp
      right
      refine ⟨np, hnp.1, by simpa using hnp.2, ?_⟩
      simp only [Bool.and_eq_true, List.any_eq_true] at hcond
      obtain ⟨hty, rule, hrule, hr⟩ := hcond
      refine ⟨by simpa using hty, rule, hrule, ?_⟩
      simp only [Bool.or_eq_true, List.isEmpty_iff, List.any_eq_true] at hr
      rcases hr with h | ⟨p, hp, hpp⟩
      · exact Or.inl h
      · exact Or.inr ⟨p, hp, by simpa using hpp⟩
    · rintro (hall | ⟨np, hnp, hmem, hty, rule, hrule, hr⟩)
      · exfalso
        apply hemp
        rw [List.isEmpty_iff, List.filter_eq_nil_iff]
        intro np hnp
        simpa using hall np hnp
      · refine ⟨np, by simp [List.mem_filter, hnp, hmem], ?_⟩
        simp only [Bool.and_eq_true, List.any_eq_true]
        refine ⟨by simpa using hty, rule, hrule, ?_⟩
        simp only [Bool.or_eq_true, List.isEmpty_iff, List.any_eq_true]
        rcases hr with h | ⟨p, hp, hpp⟩
        · exact Or.inl h
        · exact Or.inr ⟨p, hp, by simpa using hpp⟩

/-- **C5 (amended).**  The buffer never exceeds `max_snapshots`; inserting
into a full buffer of fresh snapshots evicts the oldest entry first; and for
every **nonzero** `h`, `get_recent(hours=h)` never returns a snapshot older
than `now − h` hours.  (`h = 0` is treated as unset by
`hours or self.retention_hours` and falls back to the retention window,
which is the only deviation from the claim.) -/
theorem context_buffer_retention :
    (∀ (b : ContextBuffer) (now : Int) (s : ClusterStatus),
       (b.add now s).snapshots.length ≤ b.max_snapshots) ∧
    (∀ (b : ContextBuffer) (now : Int) (s : ClusterStatus),
       b.snapshots.length = b.max_snapshots → 0 < b.max_snapshots →
       (∀ x ∈ b.snapshots, now - b.retention_hours * 3600 ≤ x.timestamp) →
       (b.add now s).snapshots = b.snapshots.drop 1 ++ [s]) ∧
    (∀ (b : ContextBuffer) (now h : Int), h ≠ 0 →
       ∀ x ∈ b.get_recent now (some h), now - h * 3600 ≤ x.timestamp) := by
  refine ⟨?_, ?_, ?_⟩
  · intro b now s
    unfold ContextBuffer.add dequeAppend
    simp only
    split
    · rename_i hgt
      simp only [List.length_drop]
      omega
    · rename_i hle
      omega
  · intro b now s hlen hpos hfresh
    unfold ContextBuffer.add dequeAppend pruneOldData
    have hprune : b.snapshots.dropWhile
        (fun x => decide (x.timestamp < now - b.retention_hours * 3600)) = b.snapshots := by
      cases hsnap : b.snapshots with
      | nil => rfl
      | cons a ttl =>
        rw [List.dropWhile_cons]
        have hna : ¬ (a.timestamp < now - b.retention_hours * 3600) :=
          not_lt.mpr (hfresh a (by rw [hsnap]; exact List.mem_cons_self a ttl))
        simp [hna]
    simp only [hprune]
    have hgt : (b.snapshots ++ [s]).length > b.max_snapshots := by
      simp [List.length_append, hlen]
    rw [if_pos hgt]
    have hd : (b.snapshots ++ [s]).length - b.max_snapshots = 1 := by
      simp [List.length_append, hlen]
    rw [hd]
    exact List.drop_append_of_le_length (by omega)
  · intro b now h hne x hx
    unfold ContextBuffer.get_recent at hx
    simp only [show (h == 0) = false by simpa using hne] at hx
    rw [List.mem_filter] at hx
    simpa using hx.2

/-- **C5 (witness).** -/
theorem context_buffer_retention_witness :
    ((bufFull.add 1000000 (snapAt 999900)).snapshots.length ≤ bufFull.max_snapshots) ∧
    ((bufFull.add 1000000 (snapAt 999900)).snapshots =
       bufFull.snapshots.drop 1 ++ [snapAt 999900]) ∧
    (∀ x ∈ bufOldSnap.get_recent 1000000 (some 2), 1000000 - 2 * 3600 ≤ x.timestamp) :=
  ⟨context_buffer_retention.1 bufFull 1000000 (snapAt 999900),
   context_buffer_retention.2.1 bufFull 1000000 (snapAt 999900) (by decide) (by decide)
     (by decide),
   context_buffer_retention.2.2 bufOldSnap 1000000 2 (by decide)⟩

/-! ## C9 -/

/-- **C9 (code bug).**  The claim says an `ActionPlan` is produced and stored
iff the tick's report has `overall_health ≠ pass`.  A tick whose report
contains a status-`fail` check aborts inside `_reason` — the root-cause loop
evaluates `check.remediation`, a field `DiagnosticCheck` does not have — so
nothing is stored despite degraded health; and with the actual runner, no
tick ever stores a plan because `run_all_checks` always raises. -/
theorem tick_stores_no_plan_for_degraded_report :
    (failReport.overall_health ≠ .pass ∧
     (tick runningState failOutcomes 0).last_action_plan = none ∧
     (tick runningState failOutcomes 0).last_reasoning = none) ∧
    (∀ (s : LoopState) (otop : Except String TopologyGraph) (topo : TopologyGraph)
       (env : ApiEnv) (t t' : Int),
       (tick s { topology := otop, report := runAllChecks topo env t } t').last_action_plan =
         s.last_action_plan) := by
  constructor
  · exact ⟨by decide, rfl, rfl⟩
  · intro s otop topo env t t'
    obtain ⟨e, he⟩ := runAllChecks_never_returns topo env t
    unfold tick tickTrace
    cases hob : observeBody otop t' with
    | error e2 => simp
    | ok obs =>
      have hr : reasonBody (runAllChecks topo env t) t' = .error e := by
        rw [he]
        simp [reasonBody, bind, Except.bind]
      simp only [he] at hr ⊢
      simp [hr]

/-! ## C4 -/

/-- **C4 (counterexample).**  A fully completed healthy tick stores the
reasoning and clears the action plan, but the phase stays at REASON —
`_loop` never sets the phase back to IDLE, so `status()` does not report
Idle after a completed tick. -/
theorem completed_tick_phase_not_idle :
    (tick runningState okOutcomes 0).last_reasoning = some rsn0 ∧
    (tick runningState okOutcomes 0).last_action_plan = none ∧
    (getStatus (tick runningState okOutcomes 0)).phase = .reason ∧
    (getStatus (tick runningState okOutcomes 0)).phase ≠ .idle :=
  ⟨rfl, rfl, rfl, by decide⟩

/-- **C4 (amended).**  During a tick the phase moves through
OBSERVE → REASON → (ACT) but is never reset to IDLE: every state reached
during a tick (including after cancellation or an exception at any point of
the trace) has a non-Idle phase, and a tick whose observe and reason stages
succeed ends with phase ACT when overall health ≠ pass and with phase REASON
when it is pass. -/
theorem tick_phase_transitions (s : LoopState) (o : TickOutcomes) (t : Int) :
    ((tick s o t).phase ≠ .idle ∧ ∀ s' ∈ tickTrace s o t, s'.phase ≠ .idle) ∧
    (∀ obs rsn, observeBody o.topology t = .ok obs →
       reasonBody o.report t = .ok rsn →
       ((rsn.diagnostic_report.overall_health ≠ .pass → (tick s o t).phase = .act) ∧
        (rsn.diagnostic_report.overall_health = .pass → (tick s o t).phase = .reason))) := by
  obtain ⟨otop, orep⟩ := o
  cases otop with
  | error te =>
    refine ⟨⟨by simp [tick, tickTrace, observeBody, Except.map], by simp [tick, tickTrace, observeBody, Except.map]⟩, ?_⟩
    intro obs rsn hobs
    simp [observeBody, Except.map] at hobs
  | ok topo =>
    cases orep with
    | error re =>
      refine ⟨⟨by simp [tick, tickTrace, observeBody, Except.map, reasonBody, bind, Except.bind],
              by simp [tick, tickTrace, observeBody, Except.map, reasonBody, bind, Except.bind]⟩, ?_⟩
      intro obs rsn hobs hrsn
      simp [reasonBody, bind, Except.bind] at hrsn
    | ok rep =>
      by_cases hfail : (rep.checks.any fun c => c.status == DiagnosticStatus.fail) = true
      · refine ⟨⟨by simp [tick, tickTrace, observeBody, Except.map, reasonBody, bind, Except.bind, hfail],
                by simp [tick, tickTrace, observeBody, Except.map, reasonBody, bind, Except.bind, hfail]⟩, ?_⟩
        intro obs rsn hobs hrsn
        simp [reasonBody, bind, Except.bind, hfail] at hrsn
      · have hrsn0 : reasonBody (Except.ok rep : Except String DiagnosticReport) t =
            .ok { timestamp := t,
                  anomalies := (rep.checks.filter (fun c => c.status == .fail)).map
                    (fun c => c.name ++ ": " ++ c.message),
                  root_causes := [],
                  confidence := if rep.checks.length > 0 then
                      1 - ((dictGetD rep.summary "fail" 0 : Nat) : Rat) /
                        ((rep.checks.length : Nat) : Rat)
                    else 1,
                  reasoning_chain := [], diagnostic_report := rep } := by
          simp [reasonBody, bind, Except.bind, hfail]
        by_cases hh : rep.overall_health = DiagnosticStatus.pass
        · refine ⟨⟨?_, ?_⟩, ?_⟩
          · simp [tick, tickTrace, observeBody, Except.map, reasonBody, bind, Except.bind, hfail, hh]
          · simp [tick, tickTrace, observeBody, Except.map, reasonBody, bind, Except.bind, hfail, hh]
          · intro obs rsn hobs hrsn
            rw [hrsn0] at hrsn
            injection hrsn with hr2
            have hdr : rsn.diagnostic_report = rep := by rw [← hr2]
            refine ⟨fun hne => absurd (by rw [hdr]; exact hh) hne, fun _ => ?_⟩
            simp [tick, tickTrace, observeBody, Except.map, reasonBody, bind, Except.bind, hfail, hh]
        · refine ⟨⟨?_, ?_⟩, ?_⟩
          · simp [tick, tickTrace, observeBody, Except.map, reasonBody, actBody, bind, Except.bind, hfail, hh]
          · simp [tick, tickTrace, observeBody, Except.map, reasonBody, actBody, bind, Except.bind, hfail, hh]
          · intro obs rsn hobs hrsn
            rw [hrsn0] at hrsn
            injection hrsn with hr2
            have hdr : rsn.diagnostic_report = rep := by rw [← hr2]
            refine ⟨fun _ => ?_, fun hp => absurd (by rw [← hdr]; exact hp) hh⟩
            simp [tick, tickTrace, observeBody, Except.map, reasonBody, actBody, bind, Except.bind, hfail, hh]

/-- **C4 (witness).** -/
theorem tick_phase_transitions_witness :
    ((tick runningState okOutcomes 0).phase ≠ .idle) ∧
    ((tick runningState okOutcomes 0).phase = .reason) :=
  ⟨(tick_phase_transitions runningState okOutcomes 0).1.1,
   ((tick_phase_transitions runningState okOutcomes 0).2 obs0 rsn0 rfl rfl).2 rfl⟩

/-! ## C10 -/

/-- **C10 (confirmed).**  The namespace-connectivity verdict computed by
`_calculate_namespace_connectivity` is independent of the source namespace:
any two matrix entries with the same destination namespace carry the same
`allowed` flag and the same blocking/allowing policy-id lists (the per-pair
body only consults policies of the destination namespace). -/
theorem namespace_connectivity_source_independent
    (pods : List PodNode) (netpols : List NetworkPolicyNode)
    (e1 e2 : NamespaceConnectivity)
    (h1 : e1 ∈ calculate_namespace_connectivity pods netpols)
    (h2 : e2 ∈ calculate_namespace_connectivity pods netpols)
    (hd : e1.destination_namespace = e2.destination_namespace) :
    e1.allowed = e2.allowed ∧ e1.blocking_policies = e2.blocking_policies ∧
      e1.allowing_policies = e2.allowing_policies := by
  unfold calculate_namespace_connectivity at h1 h2
  rw [List.mem_flatMap] at h1 h2
  obtain ⟨s1, hs1, h1⟩ := h1
  rw [List.mem_map] at h1
  obtain ⟨d1, hd1, he1⟩ := h1
  obtain ⟨s2, hs2, h2⟩ := h2
  rw [List.mem_map] at h2
  obtain ⟨d2, hd2, he2⟩ := h2
  subst he1
  subst he2
  have hdd : d1 = d2 := hd
  subst hdd
  exact ⟨rfl, rfl, rfl⟩

/-- **C10 (witness).** -/
theorem namespace_connectivity_source_independent_witness :
    (nsConnEntry [] "a" "b" ∈ calculate_namespace_connectivity [podNsA, podNsB] []) ∧
    ((nsConnEntry [] "a" "b").allowed = (nsConnEntry [] "b" "b").allowed ∧
     (nsConnEntry [] "a" "b").blocking_policies = (nsConnEntry [] "b" "b").blocking_policies ∧
     (nsConnEntry [] "a" "b").allowing_policies = (nsConnEntry [] "b" "b").allowing_policies) :=
  ⟨by decide,
   namespace_connectivity_source_independent [podNsA, podNsB] []
     (nsConnEntry [] "a" "b") (nsConnEntry [] "b" "b") (by decide) (by decide) rfl⟩

/-! ## C7 -/

/-- **C7 (counterexample).**  A pod scheduled on a node absent from the node
listing produces a `PodNode` whose `node_id` (`node-x`) is neither an
existing `ComputeNode` id nor the unscheduled sentinel. -/
theorem build_topology_dangling_node_reference :
    (build_topology testPI danglingFetch 0).map podRefIntegrity = .ok false ∧
    (build_topology testPI danglingFetch 0).map (fun g => g.pods.map (fun p => p.node_id)) =
      .ok ["node-x"] := ⟨rfl, rfl⟩

theorem dictGet?_mem {α : Type} {m : List (String × α)} {k : String} {v : α}
    (h : dictGet? m k = some v) : ∃ kv ∈ m, kv.2 = v := by
  unfold dictGet? at h
  cases hf : m.find? (fun p => p.1 == k) with
  | none => rw [hf] at h; cases h
  | some kv =>
    rw [hf] at h
    injection h with h
    exact ⟨kv, List.mem_of_find?_eq_some hf, h⟩

theorem dictSet_values {α : Type} {m : List (String × α)} {k : String} {v : α} :
    ∀ kv ∈ dictSet m k v, kv.2 = v ∨ kv ∈ m := by
  intro kv hkv
  unfold dictSet at hkv
  split at hkv
  · rw [List.mem_map] at hkv
    obtain ⟨p, hp, he⟩ := hkv
    by_cases hpk : (p.1 == k) = true
    · rw [if_pos hpk] at he
      left
      rw [← he]
    · rw [if_neg hpk] at he
      right
      rw [← he]
      exact hp
  · rw [List.mem_append] at hkv
    rcases hkv with h | h
    · right
      exact h
    · left
      rw [List.mem_singleton] at h
      rw [h]

theorem podByIp_fold_values (C : String → Prop) :
    ∀ (l : List PodNode) (acc : List (String × String)),
      (∀ kv ∈ acc, C kv.2) → (∀ p ∈ l, C p.id) →
      ∀ kv ∈ l.foldl (fun m pod =>
        match pod.ip with
        | some ip => if ip == "" then m else dictSet m ip pod.id
        | none => m) acc, C kv.2 := by
  intro l
  induction l with
  | nil =>
    intro acc hacc _ kv hkv
    exact hacc kv hkv
  | cons p t ih =>
    intro acc hacc hl kv hkv
    simp only [List.foldl_cons] at hkv
    refine ih _ ?_ (fun q hq => hl q (List.mem_cons_of_mem _ hq)) kv hkv
    intro kv2 hkv2
    cases hip : p.ip with
    | none =>
      simp only [hip] at hkv2
      exact hacc kv2 hkv2
    | some ip =>
      by_cases hblank : (ip == "") = true
      · simp only [hip, hblank, if_true] at hkv2
        exact hacc kv2 hkv2
      · simp only [hip, hblank, if_false] at hkv2
        rcases dictSet_values kv2 hkv2 with h | h
        · rw [h]
          exact hl p (List.mem_cons_self p t)
        · exact hacc kv2 h

theorem build_service_nodes_endpoint_ids
    (services : List RawService) (endpoints : List RawEndpoints) (pods : List PodNode) :
    ∀ sn ∈ build_service_nodes services endpoints pods,
      ∀ pid ∈ sn.endpoint_pod_ids, ∃ p ∈ pods, p.id = pid := by
  intro sn hsn pid hpid
  unfold build_service_nodes at hsn
  rw [List.mem_map] at hsn
  obtain ⟨svc, hsvc, he⟩ := hsn
  subst he
  simp only at hpid
  rw [List.mem_filterMap] at hpid
  obtain ⟨ip, hip, hg⟩ := hpid
  obtain ⟨kv, hkv, hv⟩ := dictGet?_mem hg
  have hval := podByIp_fold_values (fun v => ∃ p ∈ pods, p.id = v) pods []
    (by simp) (fun p hp => ⟨p, hp, rfl⟩) kv hkv
  rwa [hv] at hval

theorem build_pod_nodes_node_ids
    (nodes : List RawNode) (pods_raw : List RawPod)
    (h : ∀ p ∈ pods_raw, ∀ n, p.node_name = some n →
       n = "" ∨ ∃ rn ∈ nodes, rn.name = n) :
    ∀ pn ∈ build_pod_nodes pods_raw,
      pn.node_id = "node-unscheduled" ∨
      ∃ cn ∈ build_compute_nodes nodes, cn.id = pn.node_id := by
  intro pn hpn
  unfold build_pod_nodes at hpn
  rw [List.mem_map] at hpn
  obtain ⟨p, hp, he⟩ := hpn
  subst he
  simp only
  cases hnn : p.node_name with
  | none =>
    left
    simp [hnn]
  | some n =>
    rcases h p hp n hnn with hne | ⟨rn, hrn, hname⟩
    · left
      simp [hnn, hne]
    · by_cases hblank : (n == "") = true
      · left
        simp [hnn, hblank]
      · right
        refine ⟨_, List.mem_map_of_mem _ hrn, ?_⟩
        have hne : n ≠ "" := by simpa using hblank
        simp [hnn, hblank, hname, hne]

/-- **C7 (amended).**  For every graph returned by `build_topology`, every id
in a service's `endpoint_pod_ids` is an existing pod id (unconditionally),
and every pod's `node_id` is an existing compute-node id or the unscheduled
sentinel **provided** each scheduled pod's node name appears in the node
listing — the builder derives `node_id` from `pod.spec.node_name` without
validating it against the listed nodes. -/
theorem topology_referential_integrity
    (pi : PlatformInfo) (f : FetchResults) (t : Int) (g : TopologyGraph)
    (rawNodes : List RawNode) (rawPods : List RawPod)
    (hn : f.nodes = .ok rawNodes) (hp : f.pods = .ok rawPods)
    (hg : build_topology pi f t = .ok g)
    (hsched : ∀ p ∈ rawPods, ∀ n, p.node_name = some n →
       n = "" ∨ ∃ rn ∈ rawNodes, rn.name = n) :
    podRefIntegrity g = true ∧ svcRefIntegrity g = true := by
  obtain ⟨fn, fp, fs, fe, fnp⟩ := f
  simp only at hn hp hg
  subst hn
  subst hp
  cases fs with
  | error e => simp [build_topology, bind, Except.bind] at hg
  | ok ss =>
    cases fe with
    | error e => simp [build_topology, bind, Except.bind] at hg
    | ok es =>
      have hg2 : g = assembleTopology pi t rawNodes rawPods ss es
          (getNetworkPoliciesFetch fnp) := by
        simp [build_topology, bind, Except.bind] at hg
        exact hg.symm
      subst hg2
      constructor
      · rw [podRefIntegrity, List.all_eq_true]
        intro p hp2
        rcases build_pod_nodes_node_ids rawNodes rawPods hsched p hp2 with h | ⟨cn, hcn, hid⟩
        · simp [h]
        · have hany : ((assembleTopology pi t rawNodes rawPods ss es
              (getNetworkPoliciesFetch fnp)).compute_nodes.any
              (fun n => n.id == p.node_id)) = true := by
            rw [List.any_eq_true]
            exact ⟨cn, hcn, by simp [hid]⟩
          simp [hany]
      · rw [svcRefIntegrity, List.all_eq_true]
        intro sn hsn
        rw [List.all_eq_true]
        intro pid hpid
        obtain ⟨p, hp3, he⟩ := build_service_nodes_endpoint_ids ss es
          (build_pod_nodes rawPods) sn hsn pid hpid
        rw [List.any_eq_true]
        exact ⟨p, hp3, by simp [he]⟩

/-- **C7 (witness).** -/
theorem topology_referential_integrity_witness :
    podRefIntegrity goodGraph = true ∧ svcRefIntegrity goodGraph = true :=
  topology_referential_integrity testPI goodFetch 0 goodGraph [rawNodeX] [rawPodOnX]
    rfl rfl rfl (by decide)

/-! ## C8 -/

theorem stripCtl (topo : TopologyGraph) (t t' : Int) :
    stripCheckTime (checkControlPlaneHealth topo t) =
    stripCheckTime (checkControlPlaneHealth topo t') := by
  unfold checkControlPlaneHealth checkControlPlaneHealthBody
  simp only [remediationActionNew, bind, Except.bind]
  split_ifs <;> rfl

theorem stripApi (env : ApiEnv) (t t' : Int) :
    Except.map stripCheckTime (checkApiServerConnectivity env t) =
    Except.map stripCheckTime (checkApiServerConnectivity env t') := by
  unfold checkApiServerConnectivity
  cases env.api_version <;>
    simp [remediationActionNew, bind, Except.bind, Except.map, stripCheckTime]

theorem stripArcAgents (env : ApiEnv) (t t' : Int) :
    stripCheckTime (checkArcAgentsRunning env t) =
    stripCheckTime (checkArcAgentsRunning env t') := by
  unfold checkArcAgentsRunning checkArcAgentsRunningBody
  cases env.arc_pods with
  | error e => rfl
  | ok pods =>
    simp only [remediationActionNew, bind, Except.bind]
    split_ifs <;> rfl

theorem stripArcConn (env : ApiEnv) (t t' : Int) :
    stripCheckTime (checkArcConnectivity env t) =
    stripCheckTime (checkArcConnectivity env t') := by
  unfold checkArcConnectivity checkArcConnectivityBody
  cases env.arc_pods with
  | error e => rfl
  | ok pods =>
    simp only [bind, Except.bind]
    split_ifs <;> rfl

theorem stripDns (env : ApiEnv) (t t' : Int) :
    stripCheckTime (checkDnsResolution env t) =
    stripCheckTime (checkDnsResolution env t') := by
  unfold checkDnsResolution checkDnsResolutionBody
  cases env.kube_system_service_names with
  | error e => rfl
  | ok svcs =>
    simp only [remediationActionNew, bind, Except.bind]
    cases hdns : List.filter (fun nm => strContains nm.toLower "dns") svcs with
    | nil => rfl
    | cons d rest => rfl

theorem stripNetpols (topo : TopologyGraph) (t t' : Int) :
    stripCheckTime (checkNetworkPolicies topo t) =
    stripCheckTime (checkNetworkPolicies topo t') := by
  unfold checkNetworkPolicies
  lift_lets
  intro permissive
  split_ifs <;> rfl

theorem stripSvcEp (topo : TopologyGraph) (t t' : Int) :
    Except.map stripCheckTime (checkServiceEndpoints topo t) =
    Except.map stripCheckTime (checkServiceEndpoints topo t') := by
  unfold checkServiceEndpoints
  simp only [remediationActionNew, bind, Except.bind]
  split_ifs <;> rfl

theorem stripNodeCond (topo : TopologyGraph) (t t' : Int) :
    Except.map stripCheckTime (checkNodeConditions topo t) =
    Except.map stripCheckTime (checkNodeConditions topo t') := by
  unfold checkNodeConditions
  simp only [remediationActionNew, bind, Except.bind]
  split_ifs <;> rfl

theorem stripPodHealth (topo : TopologyGraph) (t t' : Int) :
    Except.map stripCheckTime (checkPodHealth topo t) =
    Except.map stripCheckTime (checkPodHealth topo t') := by
  unfold checkPodHealth
  simp only [remediationActionNew, bind, Except.bind]
  split_ifs <;> rfl

theorem stripNodeRes (topo : TopologyGraph) (t t' : Int) :
    stripCheckTime (checkNodeResources topo t) =
    stripCheckTime (checkNodeResources topo t') := rfl

theorem stripRestart (t t' : Int) :
    stripCheckTime (checkRestartLoops t) = stripCheckTime (checkRestartLoops t') := rfl

theorem runChecks_strip (topo : TopologyGraph) (env : ApiEnv) (t t' : Int) :
    Except.map (List.map stripCheckTime) (runChecks topo env t) =
    Except.map (List.map stripCheckTime) (runChecks topo env t') := by
  unfold runChecks
  rcases exceptMapCases (stripApi env t t') with ⟨x2, y2, hx2, hy2, hf2⟩ | ⟨e2, hx2, hy2⟩
  · rcases exceptMapCases (stripSvcEp topo t t') with ⟨x7, y7, hx7, hy7, hf7⟩ | ⟨e7, hx7, hy7⟩
    · rcases exceptMapCases (stripNodeCond topo t t') with
        ⟨x8, y8, hx8, hy8, hf8⟩ | ⟨e8, hx8, hy8⟩
      · rcases exceptMapCases (stripPodHealth topo t t') with
          ⟨x10, y10, hx10, hy10, hf10⟩ | ⟨e10, hx10, hy10⟩
        · simp only [hx2, hy2, hx7, hy7, hx8, hy8, hx10, hy10, bind, Except.bind,
            Except.map, List.map]
          refine congrArg Except.ok ?_
          simp only [List.cons.injEq, and_true]
          exact ⟨stripCtl topo t t', hf2, stripArcAgents env t t', stripArcConn env t t',
                 stripDns env t t', stripNetpols topo t t', hf7, hf8,
                 stripNodeRes topo t t', hf10, stripRestart t t'⟩
        · simp [hx2, hy2, hx7, hy7, hx8, hy8, hx10, hy10, bind, Except.bind, Except.map]
      · simp [hx2, hy2, hx7, hy7, hx8, hy8, bind, Except.bind, Except.map]
    · simp [hx2, hy2, hx7, hy7, bind, Except.bind, Except.map]
  · simp [hx2, hy2, bind, Except.bind, Except.map]

/-- **C8 (counterexample).**  Calling `run_all_checks` twice on the same
topology value yields **no** report either time (the construction raises on
its missing `platform`), so no two reports "identical except the timestamp"
exist; moreover the check lists computed on the way differ in every check's
own construction-time `timestamp`, not only the report's. -/
theorem run_all_checks_twice_yields_no_reports :
    (runAllChecks emptyTopo healthyEnv 100).isOk = false ∧
    (runAllChecks emptyTopo healthyEnv 200).isOk = false ∧
    runChecks emptyTopo healthyEnv 100 ≠ runChecks emptyTopo healthyEnv 200 :=
  ⟨rfl, rfl, by decide⟩

/-- **C8 (amended).**  Given the same topology **and the same outcomes of the
environment probes**, two runs of `run_all_checks` are deterministic up to
each check's construction-time `timestamp`: the computed check batteries
(or the raised exception) are identical once per-check timestamps are
normalised.  No `DiagnosticReport` is ever returned (the construction omits
the required `platform` field), so the claim's report-level comparison has
no instances. -/
theorem run_all_checks_deterministic_up_to_check_timestamps
    (topo : TopologyGraph) (env : ApiEnv) (t t' : Int) :
    Except.map (List.map stripCheckTime) (runChecks topo env t) =
      Except.map (List.map stripCheckTime) (runChecks topo env t') ∧
    (runAllChecks topo env t).isOk = false := by
  refine ⟨runChecks_strip topo env t t', ?_⟩
  obtain ⟨e, he⟩ := runAllChecks_never_returns topo env t
  rw [he]
  rfl

/-! ## C1 -/

theorem add_check_summary (r : DiagnosticReport) (c : DiagnosticCheck) :
    (r.add_check c).summary =
      (match c.status with
       | .pass => dictIncr (dictIncr r.summary "total") "passed"
       | .warn => dictIncr (dictIncr r.summary "total") "warnings"
       | .fail => dictIncr (dictIncr r.summary "total") "failed"
       | .error => dictIncr (dictIncr r.summary "total") "errors"
       | .unknown => dictIncr r.summary "total") := rfl

theorem add_check_overall (r : DiagnosticReport) (c : DiagnosticCheck) :
    (r.add_check c).overall_health =
      (if r.overall_health = .unknown then c.status
       else if c.status = .fail ∨ c.status = .error then .fail
       else if c.status = .warn ∧ r.overall_health = .pass then .warn
       else r.overall_health) := rfl

theorem add_check_checks (r : DiagnosticReport) (c : DiagnosticCheck) :
    (r.add_check c).checks = r.checks ++ [c] := rfl

theorem dictIncr_total (tot pa wa fa er : Nat) :
    dictIncr (mkSummary tot pa wa fa er) "total" = mkSummary (tot + 1) pa wa fa er := rfl

theorem dictIncr_passed (tot pa wa fa er : Nat) :
    dictIncr (mkSummary tot pa wa fa er) "passed" = mkSummary tot (pa + 1) wa fa er := rfl

theorem dictIncr_warnings (tot pa wa fa er : Nat) :
    dictIncr (mkSummary tot pa wa fa er) "warnings" = mkSummary tot pa (wa + 1) fa er := rfl

theorem dictIncr_failed (tot pa wa fa er : Nat) :
    dictIncr (mkSummary tot pa wa fa er) "failed" = mkSummary tot pa wa (fa + 1) er := rfl

theorem dictIncr_errors (tot pa wa fa er : Nat) :
    dictIncr (mkSummary tot pa wa fa er) "errors" = mkSummary tot pa wa fa (er + 1) := rfl

theorem mkSummary_failed (tot pa wa fa er : Nat) :
    dictGetD (mkSummary tot pa wa fa er) "failed" 0 = fa := rfl

theorem mkSummary_errors (tot pa wa fa er : Nat) :
    dictGetD (mkSummary tot pa wa fa er) "errors" 0 = er := rfl

theorem mkSummary_warnings (tot pa wa fa er : Nat) :
    dictGetD (mkSummary tot pa wa fa er) "warnings" 0 = wa := rfl

theorem addCheck_inv {r : DiagnosticReport} {c : DiagnosticCheck}
    (hInv : AddCheckInv r) (hc : c.status ≠ .unknown) : AddCheckInv (r.add_check c) := by
  obtain ⟨tot, pa, wa, fa, er, hsum, htot, hfe, hw, hp, hu⟩ := hInv
  cases hst : c.status with
  | unknown => exact absurd hst hc
  | pass =>
    refine ⟨tot + 1, pa + 1, wa, fa, er, ?_, ?_, ?_, ?_, ?_, ?_⟩
    · rw [add_check_summary, hst, hsum, dictIncr_total, dictIncr_passed]
    · rw [add_check_checks]
      simp [htot]
    all_goals rw [add_check_overall, hst]
    all_goals cases hov : r.overall_health <;>
      simp only [hov] at hfe hw hp hu ⊢ <;>
      simp at hfe hw hp hu ⊢ <;> omega
  | warn =>
    refine ⟨tot + 1, pa, wa + 1, fa, er, ?_, ?_, ?_, ?_, ?_, ?_⟩
    · rw [add_check_summary, hst, hsum, dictIncr_total, dictIncr_warnings]
    · rw [add_check_checks]
      simp [htot]
    all_goals rw [add_check_overall, hst]
    all_goals cases hov : r.overall_health <;>
      simp only [hov] at hfe hw hp hu ⊢ <;>
      simp at hfe hw hp hu ⊢ <;> omega
  | fail =>
    refine ⟨tot + 1, pa, wa, fa + 1, er, ?_, ?_, ?_, ?_, ?_, ?_⟩
    · rw [add_check_summary, hst, hsum, dictIncr_total, dictIncr_failed]
    · rw [add_check_checks]
      simp [htot]
    all_goals rw [add_check_overall, hst]
    all_goals cases hov : r.overall_health <;>
      simp only [hov] at hfe hw hp hu ⊢ <;>
      simp at hfe hw hp hu ⊢ <;> omega
  | error =>
    refine ⟨tot + 1, pa, wa, fa, er + 1, ?_, ?_, ?_, ?_, ?_, ?_⟩
    · rw [add_check_summary, hst, hsum, dictIncr_total, dictIncr_errors]
    · rw [add_check_checks]
      simp [htot]
    all_goals rw [add_check_overall, hst]
    all_goals cases hov : r.overall_health <;>
      simp only [hov] at hfe hw hp hu ⊢ <;>
      simp at hfe hw hp hu ⊢ <;> omega

theorem emptyReport_inv (c0 p0 : String) (t0 : Int) :
    AddCheckInv (emptyReport c0 p0 t0) :=
  ⟨0, 0, 0, 0, 0, rfl, rfl, by simp [emptyReport], by simp [emptyReport],
   by simp [emptyReport], by simp [emptyReport]⟩

theorem foldl_addCheck_inv (cs : List DiagnosticCheck) :
    ∀ (r : DiagnosticReport), AddCheckInv r → (∀ c ∈ cs, c.status ≠ .unknown) →
      AddCheckInv (cs.foldl DiagnosticReport.add_check r) := by
  induction cs with
  | nil =>
    intro r h _
    exact h
  | cons c t ih =>
    intro r h hall
    simp only [List.foldl_cons]
    exact ih _ (addCheck_inv h (hall c (List.mem_cons_self c t)))
      (fun x hx => hall x (List.mem_cons_of_mem _ hx))

theorem foldl_addCheck_length (cs : List DiagnosticCheck) :
    ∀ r : DiagnosticReport,
      (cs.foldl DiagnosticReport.add_check r).checks.length = r.checks.length + cs.length := by
  induction cs with
  | nil =>
    intro r
    simp
  | cons c t ih =>
    intro r
    simp only [List.foldl_cons, ih, add_check_checks]
    simp
    omega

/-- **C1 (counterexample).**  Adding one status-`error` check to an empty
report leaves `overall_health = error`, not `fail`, even though
`summary.failed + summary.errors = 1 > 0` (the first check's status is taken
verbatim because the report starts at `unknown`). -/
theorem add_check_error_first_not_fail :
    ((emptyReport "c" "p" 0).add_check errCheckFx).overall_health = .error ∧
    dictGetD ((emptyReport "c" "p" 0).add_check errCheckFx).summary "failed" 0 +
      dictGetD ((emptyReport "c" "p" 0).add_check errCheckFx).summary "errors" 0 = 1 ∧
    ((emptyReport "c" "p" 0).add_check errCheckFx).overall_health ≠ .fail :=
  ⟨rfl, rfl, by decide⟩

/-- **C1 (amended).**  The aggregation used by `run_all_checks` satisfies the
claimed rule exactly (`fail` iff fail+error counts > 0, else `warn` iff
warn > 0, else `pass`).  Reports grown by `add_check` from an empty report
satisfy it with `fail` weakened to `fail or error`: a leading `error` check
(with no later fail/error check) leaves `overall_health = error` rather than
`fail`; `warn` and `pass` behave as claimed (for `pass`, at least one check
must have been added, the empty report reads `unknown`).  Checks are assumed
not to carry the `unknown` status, which the claim does not mention. -/
theorem overall_health_aggregation :
    (∀ checks : List DiagnosticCheck,
       (computeOverallHealth (computeSummary checks) = .fail ↔
         0 < dictGetD (computeSummary checks) "fail" 0 +
             dictGetD (computeSummary checks) "error" 0) ∧
       (computeOverallHealth (computeSummary checks) = .warn ↔
         (dictGetD (computeSummary checks) "fail" 0 +
            dictGetD (computeSummary checks) "error" 0 = 0 ∧
          0 < dictGetD (computeSummary checks) "warn" 0)) ∧
       (computeOverallHealth (computeSummary checks) = .pass ↔
         (dictGetD (computeSummary checks) "fail" 0 +
            dictGetD (computeSummary checks) "error" 0 = 0 ∧
          dictGetD (computeSummary checks) "warn" 0 = 0))) ∧
    (∀ (cs : List DiagnosticCheck) (c0 p0 : String) (t0 : Int),
       (∀ c ∈ cs, c.status ≠ DiagnosticStatus.unknown) →
       (((reportOf cs c0 p0 t0).overall_health = .fail ∨
         (reportOf cs c0 p0 t0).overall_health = .error) ↔
           0 < failedPlusErrors (reportOf cs c0 p0 t0)) ∧
       ((reportOf cs c0 p0 t0).overall_health = .warn ↔
         (failedPlusErrors (reportOf cs c0 p0 t0) = 0 ∧
          0 < warningsOf (reportOf cs c0 p0 t0))) ∧
       (cs ≠ [] → ((reportOf cs c0 p0 t0).overall_health = .pass ↔
         (failedPlusErrors (reportOf cs c0 p0 t0) = 0 ∧
          warningsOf (reportOf cs c0 p0 t0) = 0)))) := by
  constructor
  · intro checks
    unfold computeOverallHealth
    refine ⟨?_, ?_, ?_⟩ <;> split_ifs with h1 h2 <;> simp_all <;> omega
  · intro cs c0 p0 t0 hall
    obtain ⟨tot, pa, wa, fa, er, hsum, htot, hfe, hw, hp, hu⟩ :=
      foldl_addCheck_inv cs (emptyReport c0 p0 t0) (emptyReport_inv c0 p0 t0) hall
    have hcount : failedPlusErrors (reportOf cs c0 p0 t0) = fa + er := by
      unfold failedPlusErrors reportOf
      rw [hsum, mkSummary_failed, mkSummary_errors]
    have hwcount : warningsOf (reportOf cs c0 p0 t0) = wa := by
      unfold warningsOf reportOf
      rw [hsum, mkSummary_warnings]
    have htot2 : tot = cs.length := by
      rw [htot, foldl_addCheck_length]
      simp [emptyReport]
    refine ⟨?_, ?_, ?_⟩
    · rw [hcount]
      exact hfe
    · rw [hcount, hwcount]
      exact hw
    · intro hne
      rw [hcount, hwcount]
      constructor
      · intro hpass
        have := hp.mp hpass
        exact ⟨this.1, this.2.1⟩
      · intro ⟨h1, h2⟩
        refine hp.mpr ⟨h1, h2, ?_⟩
        rw [htot2]
        exact List.length_pos.mpr hne

/-- **C1 (witness).** -/
theorem overall_health_aggregation_witness :
    (∀ c ∈ [errCheckFx, passCheckFx], c.status ≠ DiagnosticStatus.unknown) ∧
    ((reportOf [errCheckFx, passCheckFx] "c" "p" 0).overall_health = .fail ∨
     (reportOf [errCheckFx, passCheckFx] "c" "p" 0).overall_health = .error) :=
  ⟨by decide,
   ((overall_health_aggregation.2 [errCheckFx, passCheckFx] "c" "p" 0 (by decide)).1).mpr
     (by decide)⟩

end AksArc
